import Mathlib

/-!
Verification development for the defect-trend-analysis KPI engine
(`kpiService` and `dateService`).  The TypeScript sources are shallowly
embedded: JavaScript numbers are modelled as rationals, documents as
records of optional field values, JS `Date` values by their local calendar
fields, and the two network fetches by an explicit fetch-outcome argument.
All definitions are executable; theorems about the claims of the
specification follow the definitions.
-/

namespace DefectTrend

/-- A JavaScript field value as it arrives in a telemetry document:
either a number (modelled as a rational) or a string. -/
inductive FieldVal where
  | vnum (q : ℚ)
  | vstr (s : String)
deriving DecidableEq, Repr

/-- Numeric value of a decimal digit character. -/
def digitVal (c : Char) : ℕ := c.toNat - 48

/-- Trim as in JS `String.prototype.trim` (whitespace at both ends). -/
def strTrim (s : String) : String :=
  String.mk (((s.data.dropWhile Char.isWhitespace).reverse.dropWhile Char.isWhitespace).reverse)

/-- Uppercase as in JS `toUpperCase` (ASCII letters). -/
def strUpper (s : String) : String :=
  String.mk (s.data.map Char.toUpper)

/-- Does the second list occur contiguously inside the first? -/
def listContainsSeq (needle : List Char) : List Char → Bool
  | [] => needle.isEmpty
  | c :: rest => needle.isPrefixOf (c :: rest) || listContainsSeq needle rest

/-- JS `String.prototype.includes`. -/
def strIncludes (s sub : String) : Bool := listContainsSeq sub.data s.data

/-- Code-unit lexicographic strict order on char lists (JS string `<`). -/
def charsLtB : List Char → List Char → Bool
  | [], [] => false
  | [], _ :: _ => true
  | _ :: _, [] => false
  | a :: as, b :: bs =>
    if a.toNat < b.toNat then true
    else if b.toNat < a.toNat then false
    else charsLtB as bs

/-- Non-strict code-unit lexicographic order on strings. -/
def strLeB (a b : String) : Bool := a == b || charsLtB a.data b.data

/-- Parse a run of decimal digits; `none` when the list is empty or holds a
non-digit. -/
def digitsVal (cs : List Char) : Option ℕ :=
  if cs.isEmpty then none
  else if cs.all Char.isDigit then
    some (cs.foldl (fun a c => a * 10 + digitVal c) 0)
  else none

/-- JS `Number()` coercion of a string: empty (after trimming) is `0`;
otherwise an optionally signed decimal numeral, possibly with a fractional
part; anything else is NaN, modelled as `none`. -/
def parseNumber (s : String) : Option ℚ :=
  let t := strTrim s
  if t = "" then some 0
  else
    let p : Bool × List Char :=
      match t.data with
      | '-' :: r => (true, r)
      | '+' :: r => (false, r)
      | r => (false, r)
    let ip := p.2.takeWhile Char.isDigit
    let rest := p.2.dropWhile Char.isDigit
    let mk (q : ℚ) : ℚ := if p.1 then -q else q
    match rest with
    | [] =>
      match digitsVal ip with
      | some n => some (mk n)
      | none => none
    | '.' :: fcs =>
      if fcs.all Char.isDigit && (!ip.isEmpty || !fcs.isEmpty) then
        let ipn : ℕ := ip.foldl (fun a c => a * 10 + digitVal c) 0
        let fpn : ℕ := fcs.foldl (fun a c => a * 10 + digitVal c) 0
        some (mk ((ipn : ℚ) + (fpn : ℚ) / (10 : ℚ) ^ fcs.length))
      else none
    | _ => none

/-- JS `parseFloat`: longest numeric prefix after leading whitespace;
`none` (NaN) when no digit is consumed; trailing junk is ignored. -/
def parseFloatQ (s : String) : Option ℚ :=
  let cs := s.data.dropWhile Char.isWhitespace
  let p : Bool × List Char :=
    match cs with
    | '-' :: r => (true, r)
    | '+' :: r => (false, r)
    | r => (false, r)
  let ip := p.2.takeWhile Char.isDigit
  let rest := p.2.dropWhile Char.isDigit
  let fp : List Char :=
    match rest with
    | '.' :: r => r.takeWhile Char.isDigit
    | _ => []
  if ip.isEmpty && fp.isEmpty then none
  else
    let ipn : ℕ := ip.foldl (fun a c => a * 10 + digitVal c) 0
    let fpn : ℕ := fp.foldl (fun a c => a * 10 + digitVal c) 0
    let q : ℚ := (ipn : ℚ) + (fpn : ℚ) / (10 : ℚ) ^ fp.length
    some (if p.1 then -q else q)

/-- Decimal digits of the fractional part `rem / den`, up to `fuel` digits. -/
def fracDigits : ℕ → ℕ → ℕ → List Char
  | 0, _, _ => []
  | _ + 1, _, 0 => []
  | fuel + 1, den, rem =>
    let r10 := rem * 10
    Char.ofNat (48 + r10 / den) :: fracDigits fuel den (r10 % den)

/-- JS `String()` rendering of a number; exact for values with a
terminating decimal expansion of at most 20 digits. -/
def decimalString (q : ℚ) : String :=
  let sign := if q < 0 then "-" else ""
  let n := q.num.natAbs
  let d := q.den
  let fds := fracDigits 20 d (n % d)
  if fds.isEmpty then sign ++ toString (n / d)
  else sign ++ toString (n / d) ++ "." ++ String.mk fds

/-- JS `String()` of a field value. -/
def FieldVal.jsString : FieldVal → String
  | .vstr s => s
  | .vnum q => decimalString q

/-- JS truthiness of a possibly-absent field value (`undefined`, `0`, and
`""` are falsy). -/
def fieldTruthy : Option FieldVal → Bool
  | none => false
  | some (.vnum q) => q != 0
  | some (.vstr s) => s != ""

/-- JS `Number()` of a field value; `none` models NaN. -/
def FieldVal.toNumber : FieldVal → Option ℚ
  | .vnum q => some q
  | .vstr s => parseNumber s

/-- JS `String(x || '')`: the string rendering of a truthy value, else the
empty string. -/
def jsStringOrEmpty (v : Option FieldVal) : String :=
  match v with
  | some f => if fieldTruthy v then f.jsString else ""
  | none => ""

/-- JS `String(x || 0)`: the string rendering of a truthy value, else `"0"`. -/
def jsStringOrZero (v : Option FieldVal) : String :=
  match v with
  | some f => if fieldTruthy v then f.jsString else "0"
  | none => "0"

/-- JS `Math.round` (half away from zero becomes half up, as in JS). -/
def jsRound (q : ℚ) : ℤ := ⌊q + 1 / 2⌋

/-- JS `Math.floor`. -/
def jsFloor (q : ℚ) : ℤ := ⌊q⌋

/-- Round to two decimal places via `Math.round(x * 100) / 100`. -/
def round2 (q : ℚ) : ℚ := (jsRound (q * 100) : ℚ) / 100

/-- Render `x.toFixed(1)` for a non-negative rational. -/
def toFixed1 (q : ℚ) : String :=
  let n := jsRound (q * 10)
  toString (n / 10) ++ "." ++ toString (n % 10)

/-- A JS `Date` value, represented by its local calendar fields
(`month` is 0-based as in JS).  All dates handled by this code live in a
single fixed timezone, so instant order coincides with lexicographic
order of the fields. -/
structure PlainDate where
  year : ℤ
  month : ℤ
  day : ℤ
  hour : ℤ
  minute : ℤ
  second : ℤ
  ms : ℤ
deriving DecidableEq, Repr

/-- Field list of a date, most significant first. -/
def PlainDate.fieldList (d : PlainDate) : List ℤ :=
  [d.year, d.month, d.day, d.hour, d.minute, d.second, d.ms]

/-- Lexicographic non-strict order on integer lists. -/
def lexLe : List ℤ → List ℤ → Bool
  | [], _ => true
  | _ :: _, [] => false
  | a :: as, b :: bs =>
    if a < b then true else if b < a then false else lexLe as bs

/-- Instant order of two dates (`a <= b` on JS `Date`s). -/
def PlainDate.leb (a b : PlainDate) : Bool := lexLe a.fieldList b.fieldList

/-- Strict instant order (`a < b` on JS `Date`s). -/
def PlainDate.ltb (a b : PlainDate) : Bool := !(PlainDate.leb b a)

/-- Gregorian leap-year test. -/
def isLeapYear (y : ℤ) : Bool := (y % 4 == 0 && y % 100 != 0) || y % 400 == 0

/-- Number of days of the (0-based) month `m` of year `y`. -/
def daysInMonth (y m : ℤ) : ℤ :=
  if m = 1 then (if isLeapYear y then 29 else 28)
  else if m = 3 || m = 5 || m = 8 || m = 10 then 30
  else 31

/-- Carry a month count of 12 into the year, as JS `setMonth` does. -/
def normMonth (y m : ℤ) : ℤ × ℤ :=
  if m ≥ 12 then (y + 1, m - 12) else (y, m)

/-- The combined loop step of the monthly pre-population loops:
`setMonth(getMonth() + 1)` (which lets a day past the end of the new month
spill into the following month) followed by `setDate(1)`. -/
def PlainDate.stepMonthFirstDay (d : PlainDate) : PlainDate :=
  let p1 := normMonth d.year (d.month + 1)
  let p2 :=
    if d.day > daysInMonth p1.1 p1.2 then normMonth p1.1 (p1.2 + 1) else p1
  { d with year := p2.1, month := p2.2, day := 1 }

/-- Short month name used by `toLocaleDateString('en-US', {month:'short'})`. -/
def monthShortName (m : ℤ) : String :=
  if m = 0 then "Jan" else if m = 1 then "Feb" else if m = 2 then "Mar"
  else if m = 3 then "Apr" else if m = 4 then "May" else if m = 5 then "Jun"
  else if m = 6 then "Jul" else if m = 7 then "Aug" else if m = 8 then "Sep"
  else if m = 9 then "Oct" else if m = 10 then "Nov" else "Dec"

/-- `String(n).padStart(2, '0')`. -/
def pad2 (n : ℤ) : String :=
  let s := toString n
  if s.length < 2 then "0" ++ s else s

/-- The `YYYY-MM` month key built from a date. -/
def monthKeyOf (d : PlainDate) : String :=
  toString d.year ++ "-" ++ pad2 (d.month + 1)

/-- The `Mon YYYY` month label built from a date. -/
def monthLabelOf (d : PlainDate) : String :=
  monthShortName d.month ++ " " ++ toString d.year

/-- `toLocaleDateString()` short form `M/D/YYYY`. -/
def localeDateString (d : PlainDate) : String :=
  toString (d.month + 1) ++ "/" ++ toString d.day ++ "/" ++ toString d.year

/-- The short-code field object of a telemetry document (`row.data`). -/
structure DocData where
  D0 : Option FieldVal
  D2 : Option FieldVal
  D6 : Option FieldVal
  D9 : Option FieldVal
  D10 : Option FieldVal
  D17 : Option FieldVal
  D51 : Option FieldVal
  D52 : Option FieldVal
  D53 : Option FieldVal
deriving DecidableEq, Repr

/-- An empty field object. -/
def DocData.empty : DocData := ⟨none, none, none, none, none, none, none, none, none⟩

/-- One fetched MongoDB document.  The primary `timestamp` field is stored
as its JS parse result: `none` = absent or falsy, `some none` = present but
unparseable (`new Date` gives NaN), `some (some d)` = parses to `d`.
`altTimestamps` holds, in probe order, the parse results of whichever
alternative timestamp fields are present on the raw object. -/
structure MongoDataRow where
  data : Option DocData
  timestamp : Option (Option PlainDate)
  altTimestamps : List (Option PlainDate)
deriving DecidableEq, Repr

/-- Resolved time range handed to the KPI computations. -/
structure DateRange where
  startDate : PlainDate
  endDate : PlainDate
  label : String
deriving DecidableEq, Repr

/-- Quarter descriptor returned by the calendar resolver. -/
structure QuarterInfo where
  quarter : ℤ
  year : ℤ
  startDate : PlainDate
  endDate : PlainDate
deriving DecidableEq, Repr

/-- `new Date(y, mo, d, h, 0, 0, 0)` with in-range arguments. -/
def mkDate (y mo d h : ℤ) : PlainDate := ⟨y, mo, d, h, 0, 0, 0⟩

/-- `getQuarterDates` of `dateService`: fixed quarter boundaries at the
08:00 operational-cycle time; an out-of-range quarter number throws. -/
def getQuarterDates (quarter year : ℤ) : Except String QuarterInfo :=
  if quarter = 1 then .ok ⟨1, year, mkDate year 0 1 8, mkDate year 2 31 8⟩
  else if quarter = 2 then .ok ⟨2, year, mkDate year 3 1 8, mkDate year 5 30 8⟩
  else if quarter = 3 then .ok ⟨3, year, mkDate year 6 1 8, mkDate year 8 30 8⟩
  else if quarter = 4 then .ok ⟨4, year, mkDate year 9 1 8, mkDate year 11 31 8⟩
  else .error ("Invalid quarter: " ++ toString quarter ++ ". Must be 1, 2, 3, or 4.")

/-- `getCurrentQuarter`: quarter of the current month of the clock value
`now`, resolved against the given reference year. -/
def getCurrentQuarter (now : PlainDate) (year : ℤ) : Except String QuarterInfo :=
  let currentMonth := now.month + 1
  let quarter : ℤ :=
    if 1 ≤ currentMonth ∧ currentMonth ≤ 3 then 1
    else if 4 ≤ currentMonth ∧ currentMonth ≤ 6 then 2
    else if 7 ≤ currentMonth ∧ currentMonth ≤ 9 then 3
    else 4
  getQuarterDates quarter year

/-- `getPreviousQuarter`: Q4 of the previous year when the current quarter
is Q1, else the preceding quarter of the same year. -/
def getPreviousQuarter (now : PlainDate) (year : ℤ) : Except String QuarterInfo := do
  let cq ← getCurrentQuarter now year
  if cq.quarter = 1 then getQuarterDates 4 (year - 1)
  else getQuarterDates (cq.quarter - 1) year

/-- `getDateRangeForTimePeriod` of `dateService`; the ambient system clock
is passed explicitly as `now`. -/
def getDateRangeForTimePeriod (timePeriod : String)
    (customStartDate customEndDate : Option PlainDate)
    (year : ℤ) (now : PlainDate) : Except String DateRange :=
  if timePeriod = "current-quarter" then do
    let cq ← getCurrentQuarter now year
    let todayAt8AM := mkDate now.year now.month now.day 8
    let endDate :=
      if PlainDate.leb cq.startDate now && PlainDate.leb now cq.endDate
      then todayAt8AM else cq.endDate
    pure ⟨cq.startDate, endDate,
      "Current Quarter (Q" ++ toString cq.quarter ++ " " ++ toString year ++ ")"⟩
  else if timePeriod = "last-quarter" then do
    let lq ← getPreviousQuarter now year
    pure ⟨lq.startDate, lq.endDate,
      "Last Quarter (Q" ++ toString lq.quarter ++ " " ++ toString lq.year ++ ")"⟩
  else if timePeriod = "q1" then do
    let q ← getQuarterDates 1 year
    pure ⟨q.startDate, q.endDate, "Q1 " ++ toString year⟩
  else if timePeriod = "q2" then do
    let q ← getQuarterDates 2 year
    pure ⟨q.startDate, q.endDate, "Q2 " ++ toString year⟩
  else if timePeriod = "q3" then do
    let q ← getQuarterDates 3 year
    pure ⟨q.startDate, q.endDate, "Q3 " ++ toString year⟩
  else if timePeriod = "q4" then do
    let q ← getQuarterDates 4 year
    pure ⟨q.startDate, q.endDate, "Q4 " ++ toString year⟩
  else if timePeriod = "custom" then
    let startDate :=
      match customStartDate with
      | some c => mkDate c.year c.month c.day 8
      | none => mkDate year 0 1 8
    let endDate :=
      match customEndDate with
      | some c => mkDate c.year c.month c.day 8
      | none => mkDate now.year now.month now.day 8
    pure ⟨startDate, endDate,
      "Custom (" ++ localeDateString startDate ++ " - " ++ localeDateString endDate ++ ")"⟩
  else do
    let cq ← getCurrentQuarter now year
    pure ⟨cq.startDate, now,
      "Current Quarter (Q" ++ toString cq.quarter ++ " " ++ toString year ++ ")"⟩

/-- Optional-chained field access `row.data?.<field>`. -/
def MongoDataRow.field (r : MongoDataRow) (f : DocData → Option FieldVal) : Option FieldVal :=
  match r.data with
  | some d => f d
  | none => none

/-- The payload shape of a store response: a proper `{data: [...]}` body, a
bare JSON array, or anything else (missing or unparseable `data`). -/
inductive Payload where
  | rows (rs : List MongoDataRow)
  | rawRows (rs : List MongoDataRow)
  | malformed
deriving DecidableEq, Repr

/-- Outcome of one store fetch: a response payload, or a thrown
transport/HTTP error. -/
inductive StoreResult where
  | success (p : Payload)
  | failure
deriving DecidableEq, Repr

/-- A thrown JS error. -/
structure JsError where
  message : String
deriving DecidableEq, Repr

deriving instance DecidableEq for Except

/-- `Number(x)` applied to a field only when it is present and non-null. -/
def numIfPresent (v : Option FieldVal) : Option ℚ :=
  match v with
  | some f => f.toNumber
  | none => none

/-- Sum a numeric field over documents, skipping absent and NaN values
(the `!== undefined && !== null` plus `!isNaN` pattern of the source). -/
def sumNumeric (docs : List MongoDataRow) (f : DocData → Option FieldVal) : ℚ :=
  docs.foldl (fun acc doc =>
    match numIfPresent (doc.field f) with
    | some q => acc + q
    | none => acc) 0

/-- Downtime keyword set of `calculatePostDowntimeDR`. -/
def downtimeIndicators : List String :=
  ["DOWNTIME", "DOWN", "MAINTENANCE", "STOP", "OFF", "0", "STOPPED"]

/-- Production keyword set of `calculatePostDowntimeDR`. -/
def productionIndicators : List String :=
  ["PRODUCTION", "RUN", "RUNNING", "ACTIVE", "ON", "1", "PRODUCING"]

/-- `String(doc.data?.D2 || '').toUpperCase()`. -/
def d2ValueOf (doc : MongoDataRow) : String :=
  strUpper (jsStringOrEmpty (doc.field (·.D2)))

/-- Downtime classification of one document. -/
def isDowntimeDoc (doc : MongoDataRow) : Bool :=
  downtimeIndicators.any (fun ind => strIncludes (d2ValueOf doc) ind)

/-- Production classification of one document: a production keyword in the
status text, or — failing both keyword sets — a truthy, positive unit
count. -/
def isProductionDoc (doc : MongoDataRow) : Bool :=
  productionIndicators.any (fun ind => strIncludes (d2ValueOf doc) ind)
  || (!isDowntimeDoc doc && fieldTruthy (doc.field (·.D6))
      && (match numIfPresent (doc.field (·.D6)) with
          | some q => decide (0 < q)
          | none => false))

/-- Sort key order for `new Date(t).getTime()`; documents whose present
timestamp does not parse compare NaN in JS, where the sort order is
unspecified — the model places them first. -/
def tsSortLe (a b : MongoDataRow) : Bool :=
  match a.timestamp, b.timestamp with
  | some (some da), some (some db) => PlainDate.leb da db
  | some none, _ => true
  | _, some none => false
  | _, _ => true

/-- The documents of `calculatePostDowntimeDR` after the timestamp filter
and the chronological sort. -/
def sortedDocsOf (documents : List MongoDataRow) : List MongoDataRow :=
  List.insertionSort (fun a b => tsSortLe a b = true)
    (documents.filter (fun d => d.timestamp.isSome))

/-- The indexed scan of `calculatePostDowntimeDR`: walk the sorted stream,
remember the most recent downtime position, and collect each
production-classified document whose position is strictly after it. -/
def postDowntimeScan : List MongoDataRow → ℤ → ℕ → List (ℕ × MongoDataRow)
  | [], _, _ => []
  | doc :: rest, lastDowntimeIndex, index =>
    let lastDT := if isDowntimeDoc doc then (index : ℤ) else lastDowntimeIndex
    let tail := postDowntimeScan rest lastDT (index + 1)
    if isProductionDoc doc && decide (0 ≤ lastDT) && decide (lastDT < (index : ℤ))
    then (index, doc) :: tail else tail

/-- Mould filter of the post-downtime candidates:
`String(doc.data?.D17 || '').trim() === String(mould).trim()`. -/
def postDowntimeMouldPred (mould : String) (doc : MongoDataRow) : Bool :=
  strTrim (jsStringOrEmpty (doc.field (·.D17))) == strTrim mould

/-- `calculatePostDowntimeDR` of `kpiService`. -/
def calculatePostDowntimeDR (documents : List MongoDataRow) (mould : String) : ℚ :=
  let sortedDocs := sortedDocsOf documents
  let postDowntimeDocs := (postDowntimeScan sortedDocs (-1) 0).map (·.2)
  let mouldFilteredPostDowntimeDocs := postDowntimeDocs.filter (postDowntimeMouldPred mould)
  let postDowntimeRejections := sumNumeric mouldFilteredPostDowntimeDocs (·.D52)
  let postDowntimeUnitsProduced := sumNumeric mouldFilteredPostDowntimeDocs (·.D6)
  if 0 < postDowntimeUnitsProduced then
    round2 (postDowntimeRejections / postDowntimeUnitsProduced * 100)
  else 0

/-- Mould filter of `calculateTotalDowntime` (guarded trim-equality on the
`D17` field). -/
def downtimeMouldPred (mould : String) (doc : MongoDataRow) : Bool :=
  match doc.data with
  | none => false
  | some d =>
    if !fieldTruthy d.D17 then false
    else strTrim (jsStringOrEmpty d.D17) == strTrim mould

/-- `calculateTotalDowntime`: sum of the positive numeric `D9` values of
the mould-matching documents, converted to hours and rounded. -/
def calculateTotalDowntime (documents : List MongoDataRow) (mould : String) : ℚ :=
  let mouldFilteredDocs := documents.filter (downtimeMouldPred mould)
  let totalDowntimeSeconds := mouldFilteredDocs.foldl (fun acc doc =>
    match numIfPresent (doc.field (·.D9)) with
    | some q => if 0 < q then acc + q else acc
    | none => acc) 0
  round2 (totalDowntimeSeconds / 3600)

/-- Name-match test of the `fetchCycleTime` loop: the entry must have a
truthy `D0` whose trimmed string equals the trimmed mould. -/
def cycleMatchOk (sel : String) (doc : MongoDataRow) : Bool :=
  match doc.data with
  | some d => fieldTruthy d.D0 && (strTrim (jsStringOrEmpty d.D0) == sel)
  | none => false

/-- Cycle-time validity test of the `fetchCycleTime` loop: `D2` present,
numeric and strictly positive; returns the value when valid. -/
def cycleValid? (doc : MongoDataRow) : Option ℚ :=
  match doc.data with
  | some d =>
    match d.D2 with
    | some f =>
      match f.toNumber with
      | some q => if 0 < q then some q else none
      | none => none
    | none => none
  | none => none

/-- The document loop of `fetchCycleTime`: stop at the first name-matching
entry with a valid positive cycle time; keep scanning otherwise. -/
def cycleLoop (sel : String) : List MongoDataRow → ℚ
  | [] => 0
  | doc :: rest =>
    if cycleMatchOk sel doc then
      match cycleValid? doc with
      | some q => q
      | none => cycleLoop sel rest
    else cycleLoop sel rest

/-- `fetchCycleTime` of `kpiService`: a missing `data` body throws inside
the `try` and every thrown error is caught and degraded to `0`. -/
def fetchCycleTime (store : StoreResult) (mould : String) : ℚ :=
  match store with
  | .failure => 0
  | .success (.rows mongoRows) => cycleLoop (strTrim mould) mongoRows
  | .success (.rawRows _) => 0
  | .success .malformed => 0

/-- Rejection penalty term of the health index. -/
def rejectionPenalty (totalUnitsProduced totalRejection : ℚ) : ℚ :=
  if 0 < totalUnitsProduced then totalRejection / totalUnitsProduced * 100 else 0

/-- Expected runtime in hours from cycle time and units. -/
def expectedRuntimeHours (cycleTimeSeconds totalUnitsProduced : ℚ) : ℚ :=
  if 0 < cycleTimeSeconds ∧ 0 < totalUnitsProduced
  then cycleTimeSeconds * totalUnitsProduced / 3600 else 0

/-- Downtime penalty term of the health index. -/
def downtimePenalty (totalDowntime expected : ℚ) : ℚ :=
  if 0 < expected then totalDowntime / expected * 100 else 0

/-- `calculateMoldHealthIndex` of `kpiService`. -/
def calculateMoldHealthIndex
    (totalUnitsProduced totalRejection totalDowntime cycleTimeSeconds : ℚ) : ℚ :=
  let rp := rejectionPenalty totalUnitsProduced totalRejection
  let er := expectedRuntimeHours cycleTimeSeconds totalUnitsProduced
  let dp := downtimePenalty totalDowntime er
  let moldHealthIndex := 100 - (rp + dp)
  let finalMHI := max 0 moldHealthIndex
  round2 finalMHI

/-- Association-list model of a JS `Map`, preserving insertion order. -/
def amapGetD {α : Type} : List (String × α) → String → α → α
  | [], _, d => d
  | e :: m, k, d => if e.1 == k then e.2 else amapGetD m k d

/-- Key membership of a JS `Map`. -/
def amapHas {α : Type} : List (String × α) → String → Bool
  | [], _ => false
  | e :: m, k => e.1 == k || amapHas m k

/-- `Map.set`: replace in place when the key exists, append otherwise. -/
def amapSet {α : Type} : List (String × α) → String → α → List (String × α)
  | [], k, v => [(k, v)]
  | e :: m, k, v => if e.1 == k then (k, v) :: m else e :: amapSet m k v

/-- In-place mutation of the value object stored under a key. -/
def amapUpdate {α : Type} (f : α → α) : List (String × α) → String → List (String × α)
  | [], _ => []
  | e :: m, k => if e.1 == k then (e.1, f e.2) :: m else e :: amapUpdate f m k

/-- One ranked rejection reason; the percentage field is a string on the
real path but a number on the synthetic path, exactly as the untyped
source produces. -/
structure TopRejectionReason where
  reason : String
  count : ℚ
  percentage : FieldVal
deriving DecidableEq, Repr

/-- KPI snapshot returned by `calculateKPIs`. -/
structure KPIResult where
  totalUnitsProduced : ℚ
  totalRejection : ℚ
  postDowntimeDR : ℚ
  totalDowntime : ℚ
  moldHealthIndex : ℚ
  topRejectionReasons : List TopRejectionReason
  documentCount : ℚ
  dateRange : String
  machine : String
  mould : String
deriving DecidableEq, Repr

/-- One month entry of the monthly defect-rate series. -/
structure MonthlyDefectRateData where
  month : String
  unitsProduced : ℚ
  defectUnits : ℚ
  defectRate : ℚ
deriving DecidableEq, Repr

/-- One slice of the defect-reason breakdown. -/
structure DefectReasonData where
  name : String
  value : ℚ
  count : ℚ
  color : Option String
deriving DecidableEq, Repr

/-- One month entry of the production-vs-target series. -/
structure ProductionVsTargetData where
  month : String
  production : ℚ
  target : ℚ
deriving DecidableEq, Repr

/-- Mould filter of `calculateTopRejectionReasons` (same guarded
trim-equality as the other aggregations). -/
def topReasonsMouldPred (mould : String) (doc : MongoDataRow) : Bool :=
  match doc.data with
  | none => false
  | some d =>
    if !fieldTruthy d.D17 then false
    else strTrim (jsStringOrEmpty d.D17) == strTrim mould

/-- Admission test of `calculateTopRejectionReasons`: the rejection count
`D52` must be truthy, numeric and strictly positive; the value is the
count. -/
def topReasonsCount? (doc : MongoDataRow) : Option ℚ :=
  let d52 := doc.field (·.D52)
  if !fieldTruthy d52 then none
  else
    match numIfPresent d52 with
    | some q => if q ≤ 0 then none else some q
    | none => none

/-- Reason text of `calculateTopRejectionReasons`: the trimmed `D53` when
truthy and non-blank, else the sentinel. -/
def topReasonOf (doc : MongoDataRow) : String :=
  let d53 := doc.field (·.D53)
  if fieldTruthy d53 && (strTrim (jsStringOrEmpty d53) != "") then
    strTrim (jsStringOrEmpty d53)
  else "Unknown Reason"

/-- One step of the reason aggregations: skip an inadmissible document,
else add its count to its reason's map entry and to the grand total. -/
def reasonStep (count? : MongoDataRow → Option ℚ) (reasonOf : MongoDataRow → String)
    (acc : List (String × ℚ) × ℚ) (doc : MongoDataRow) : List (String × ℚ) × ℚ :=
  match count? doc with
  | none => acc
  | some c =>
    let r := reasonOf doc
    (amapSet acc.1 r (amapGetD acc.1 r 0 + c), acc.2 + c)

/-- Shared accumulation shape of the two reason aggregations: fold the
admitted documents into a reason-to-count map plus a running grand
total. -/
def reasonFold (count? : MongoDataRow → Option ℚ) (reasonOf : MongoDataRow → String)
    (docs : List MongoDataRow) : List (String × ℚ) × ℚ :=
  docs.foldl (reasonStep count? reasonOf) ([], 0)

/-- The rejection-reason map and total of `calculateTopRejectionReasons`. -/
def topReasonsFold (docs : List MongoDataRow) : List (String × ℚ) × ℚ :=
  reasonFold topReasonsCount? topReasonOf docs

/-- `calculateTopRejectionReasons` of `kpiService`. -/
def calculateTopRejectionReasons (documents : List MongoDataRow) (mould : String) :
    List TopRejectionReason :=
  let mouldFilteredDocs := documents.filter (topReasonsMouldPred mould)
  let agg := topReasonsFold mouldFilteredDocs
  let totalRejectionUnits := agg.2
  let sortedReasons :=
    List.insertionSort (fun a b : TopRejectionReason => (b.count ≤ a.count : Prop))
      (agg.1.map (fun e =>
        ⟨e.1, e.2,
          .vstr (if 0 < totalRejectionUnits
                 then toFixed1 (e.2 / totalRejectionUnits * 100) ++ "%" else "0%")⟩))
  sortedReasons.take 3

/-- Convert the date to IST by adding 5 hours 30 minutes, as
`formatDateForMongoDB` does via `getTime() + istOffset`. -/
def addIstOffset (d : PlainDate) : PlainDate :=
  let totalM := d.hour * 60 + d.minute + 330
  let d1 : PlainDate :=
    { d with hour := (totalM % (24 * 60)) / 60, minute := totalM % 60,
             day := d.day + totalM / (24 * 60) }
  if d1.day > daysInMonth d1.year d1.month then
    let p := normMonth d1.year (d1.month + 1)
    { d1 with year := p.1, month := p.2, day := d1.day - daysInMonth d1.year d1.month }
  else d1

/-- `formatDateForMongoDB`: IST-shifted `YYYY-MM-DD HH:mm:ss`. -/
def formatDateForMongoDB (date : PlainDate) : String :=
  let istDate := addIstOffset date
  toString istDate.year ++ "-" ++ pad2 (istDate.month + 1) ++ "-" ++ pad2 istDate.day
    ++ " " ++ pad2 istDate.hour ++ ":" ++ pad2 istDate.minute ++ ":" ++ pad2 istDate.second

/-- `adjustStartDateToCycleTime`: `setHours(8, 0, 0, 0)`. -/
def adjustStartDateToCycleTime (d : PlainDate) : PlainDate :=
  { d with hour := 8, minute := 0, second := 0, ms := 0 }

/-- Loop of `generateTestMonthlyData`: one entry per month from the start
date while within the range, with a hard stop after 13 iterations
(`monthIndex > 12` safety break).  `rand` is the injected random source,
consumed positionally. -/
def testMonthlyGo (rand : ℕ → ℚ) (endDate : PlainDate) (baseUnits baseDefectRate : ℚ) :
    ℕ → ℕ → PlainDate → List MonthlyDefectRateData
  | fuel, ri, currentDate =>
    if PlainDate.leb currentDate endDate then
      let variation := 7 / 10 + rand ri * (6 / 10)
      let unitsProduced : ℚ := (jsRound (baseUnits * variation) : ℚ)
      let defectRate := max (1 / 10) (baseDefectRate + (rand (ri + 1) - 1 / 2) * (3 / 2))
      let defectUnits : ℚ := (jsRound (unitsProduced * (defectRate / 100)) : ℚ)
      let entry : MonthlyDefectRateData := ⟨monthLabelOf currentDate, unitsProduced, defectUnits, defectRate⟩
      match fuel with
      | 0 => [entry]
      | f + 1 =>
        entry :: testMonthlyGo rand endDate baseUnits baseDefectRate f (ri + 2)
          currentDate.stepMonthFirstDay
    else []

/-- `generateTestMonthlyData` of `kpiService`. -/
def generateTestMonthlyData (rand : ℕ → ℚ) (dateRange : DateRange) (_mould : String) :
    List MonthlyDefectRateData :=
  let baseUnits := 8000 + rand 0 * 4000
  let baseDefectRate := 3 / 2 + rand 1 * 2
  testMonthlyGo rand dateRange.endDate baseUnits baseDefectRate 12 2 dateRange.startDate

/-- `generateTestKPIData` of `kpiService`: totals are derived from the
synthetic monthly series to keep cross-view totals consistent. -/
def generateTestKPIData (rand : ℕ → ℚ) (machine mould : String) (dateRange : DateRange) :
    KPIResult :=
  let monthlyTestData := generateTestMonthlyData rand dateRange mould
  let totalUnitsProduced := (monthlyTestData.map (·.unitsProduced)).sum
  let totalDefectUnits := (monthlyTestData.map (·.defectUnits)).sum
  { totalUnitsProduced := totalUnitsProduced
    totalRejection := totalDefectUnits
    postDowntimeDR := rand 100 * (1 / 10)
    totalDowntime := 30 + rand 101 * 20
    moldHealthIndex := 75 + rand 102 * 20
    topRejectionReasons := [
      ⟨"Short Molding", (jsRound (totalDefectUnits * (6 / 10)) : ℚ), .vnum (60 + rand 103 * 10)⟩,
      ⟨"Flash", (jsRound (totalDefectUnits * (25 / 100)) : ℚ), .vnum (20 + rand 104 * 10)⟩,
      ⟨"Burn Mark", (jsRound (totalDefectUnits * (15 / 100)) : ℚ), .vnum (10 + rand 105 * 10)⟩]
    documentCount := 450 + (jsRound (rand 106 * 50) : ℚ)
    dateRange := formatDateForMongoDB dateRange.startDate ++ " - " ++ formatDateForMongoDB dateRange.endDate
    machine := machine
    mould := mould }

/-- Base reason distribution of `generateTestDefectReasonData`. -/
def testReasonBase : List (String × ℚ) :=
  [("Short Molding", 861 / 1000), ("Black Spot", 139 / 1000)]

/-- Renormalize a distribution so its weights sum to one. -/
def normalizeDist (l : List (String × ℚ)) : List (String × ℚ) :=
  let tot := (l.map (·.2)).sum
  l.map (fun e => (e.1, e.2 / tot))

/-- Reason distribution used for a given synthetic total. -/
def reasonDistributionFor (total : ℚ) : List (String × ℚ) :=
  let d1 :=
    if 100 < total
    then normalizeDist (testReasonBase ++ [("Flash", 8 / 100), ("Silver Mark", 5 / 100)])
    else testReasonBase
  if 500 < total
  then normalizeDist (d1 ++ [("Burn Mark", 3 / 100), ("Warpage", 2 / 100)])
  else d1

/-- Assign rounded counts to the distribution; the last reason receives
the remainder; zero-count reasons are dropped. -/
def buildDefectReasons (total : ℚ) : List (String × ℚ) → ℚ → List DefectReasonData
  | [], _ => []
  | [last], assigned =>
    let count := total - assigned
    if 0 < count then [⟨last.1, count / total * 100, count, none⟩] else []
  | e :: rest, assigned =>
    let count : ℚ := (jsRound (total * e.2) : ℚ)
    (if 0 < count then [(⟨e.1, count / total * 100, count, none⟩ : DefectReasonData)] else [])
      ++ buildDefectReasons total rest (assigned + count)

/-- `generateTestDefectReasonData` of `kpiService`. -/
def generateTestDefectReasonData (_mould : String) (totalRejectionUnits : ℚ) :
    List DefectReasonData :=
  if totalRejectionUnits ≤ 0 then []
  else
    List.insertionSort (fun a b : DefectReasonData => (b.count ≤ a.count : Prop))
      (buildDefectReasons totalRejectionUnits (reasonDistributionFor totalRejectionUnits) 0)

/-- Mould filter of `calculateKPIs` (guarded trim-equality on `D17`). -/
def kpiMouldPred (mould : String) (row : MongoDataRow) : Bool :=
  match row.data with
  | none => false
  | some d =>
    if !fieldTruthy d.D17 then false
    else strTrim (jsStringOrEmpty d.D17) == strTrim mould

/-- Mould filter of `calculateMonthlyDefectRateData` (same shape). -/
def monthlyMouldPred (mould : String) (row : MongoDataRow) : Bool :=
  match row.data with
  | none => false
  | some d =>
    if !fieldTruthy d.D17 then false
    else strTrim (jsStringOrEmpty d.D17) == strTrim mould

/-- Mould filter of `calculateDefectReasonBreakdown` (same shape). -/
def breakdownMouldPred (mould : String) (row : MongoDataRow) : Bool :=
  match row.data with
  | none => false
  | some d =>
    if !fieldTruthy d.D17 then false
    else strTrim (jsStringOrEmpty d.D17) == strTrim mould

/-- Mould filter of `getTotalRejectionUnits` (same shape). -/
def totalRejMouldPred (mould : String) (row : MongoDataRow) : Bool :=
  match row.data with
  | none => false
  | some d =>
    if !fieldTruthy d.D17 then false
    else strTrim (jsStringOrEmpty d.D17) == strTrim mould

/-- `calculateKPIs` of `kpiService`.  The primary fetch outcome and the
mold-mapping fetch outcome (consumed by the nested `fetchCycleTime` call)
are explicit arguments; `rand` is the injected random source of the
degraded-mode generators. -/
def calculateKPIs (store cycleStore : StoreResult) (machine mould : String)
    (dateRange : DateRange) (rand : ℕ → ℚ) : Except JsError KPIResult :=
  let adjustedStartDate := adjustStartDateToCycleTime dateRange.startDate
  let tryBody : Except JsError KPIResult :=
    match store with
    | .failure => .error ⟨"Network Error"⟩
    | .success .malformed => .error ⟨"Missing data in KPI response"⟩
    | .success (.rawRows _) => .error ⟨"Missing data in KPI response"⟩
    | .success (.rows mongoRows) =>
      let mouldFilteredDocs := mongoRows.filter (kpiMouldPred mould)
      if mouldFilteredDocs.isEmpty then
        .ok (generateTestKPIData rand machine mould dateRange)
      else
        let totalUnitsProduced := sumNumeric mouldFilteredDocs (·.D6)
        let totalRejection := sumNumeric mouldFilteredDocs (·.D52)
        let postDowntimeDR := calculatePostDowntimeDR mongoRows mould
        let totalDowntime := calculateTotalDowntime mongoRows mould
        let cycleTimeSeconds := fetchCycleTime cycleStore mould
        let moldHealthIndex :=
          calculateMoldHealthIndex totalUnitsProduced totalRejection totalDowntime cycleTimeSeconds
        let topRejectionReasons := calculateTopRejectionReasons mongoRows mould
        let result : KPIResult :=
          { totalUnitsProduced := totalUnitsProduced
            totalRejection := totalRejection
            postDowntimeDR := postDowntimeDR
            totalDowntime := totalDowntime
            moldHealthIndex := moldHealthIndex
            topRejectionReasons := topRejectionReasons
            documentCount := (mouldFilteredDocs.length : ℚ)
            dateRange := formatDateForMongoDB adjustedStartDate ++ " - "
              ++ formatDateForMongoDB dateRange.endDate
            machine := machine
            mould := mould }
        if totalUnitsProduced = 0 then .ok (generateTestKPIData rand machine mould dateRange)
        else .ok result
  match tryBody with
  | .ok v => .ok v
  | .error _ => .ok (generateTestKPIData rand machine mould dateRange)

/-- One month bucket of the monthly aggregation map. -/
structure MBucket where
  unitsProduced : ℚ
  defectCount : ℚ
  month : String
deriving DecidableEq, Repr

/-- The pre-population loop of `calculateMonthlyDefectRateData`: seed a
zero bucket for the month of the cursor, then advance the cursor with
`setMonth(getMonth() + 1); setDate(1)` while it is at or before the range
end.  The loop always terminates because the cursor's month index strictly
increases; `fuel` bounds the modelled iteration count (600 months). -/
def prePopulateMonths : ℕ → PlainDate → PlainDate → List (String × MBucket) →
    List (String × MBucket)
  | 0, _, _, m => m
  | fuel + 1, currentDate, endDate, m =>
    if PlainDate.leb currentDate endDate then
      let monthKey := monthKeyOf currentDate
      let m1 := if amapHas m monthKey then m
                else amapSet m monthKey ⟨0, 0, monthLabelOf currentDate⟩
      prePopulateMonths fuel currentDate.stepMonthFirstDay endDate m1
    else m

/-- First parseable value among the alternative timestamp fields. -/
def firstValidAlt : List (Option PlainDate) → Option PlainDate
  | [] => none
  | some d :: _ => some d
  | none :: rest => firstValidAlt rest

/-- Timestamp resolution of the monthly aggregation: the primary field
when present (even if unparseable, in which case the document is
dropped), else the first parseable alternative field. -/
def resolveTimestamp (row : MongoDataRow) : Option PlainDate :=
  match row.timestamp with
  | some parsed => parsed
  | none => firstValidAlt row.altTimestamps

/-- Does the document carry a resolvable timestamp inside the (closed)
aggregation range? -/
def monthlyTsOk (dateRange : DateRange) (row : MongoDataRow) : Bool :=
  match resolveTimestamp row with
  | none => false
  | some ts => !(PlainDate.ltb ts dateRange.startDate || PlainDate.ltb dateRange.endDate ts)

/-- Per-document step of the monthly aggregation: resolve and range-check
the timestamp, make sure the month bucket exists, then add the positive
numeric `D6` and `D52` values to it. -/
def monthlyAggStep (dateRange : DateRange) (m : List (String × MBucket))
    (row : MongoDataRow) : List (String × MBucket) :=
  match resolveTimestamp row with
  | none => m
  | some ts =>
    if PlainDate.ltb ts dateRange.startDate || PlainDate.ltb dateRange.endDate ts then m
    else
      let monthKey := monthKeyOf ts
      let m1 := if amapHas m monthKey then m
                else amapSet m monthKey ⟨0, 0, monthLabelOf ts⟩
      let m2 :=
        match numIfPresent (row.field (·.D6)) with
        | some q =>
          if 0 < q then
            amapUpdate (fun b => { b with unitsProduced := b.unitsProduced + q }) m1 monthKey
          else m1
        | none => m1
      match numIfPresent (row.field (·.D52)) with
      | some q =>
        if 0 < q then
          amapUpdate (fun b => { b with defectCount := b.defectCount + q }) m2 monthKey
        else m2
      | none => m2

/-- The units a document adds to its month bucket (positive numeric `D6`
of an in-range, timestamped document; zero otherwise). -/
def monthlyUnitsContribution (dateRange : DateRange) (row : MongoDataRow) : ℚ :=
  if monthlyTsOk dateRange row then
    match numIfPresent (row.field (·.D6)) with
    | some q => if 0 < q then q else 0
    | none => 0
  else 0

/-- The `totalUnitsAggregated` counter of the monthly aggregation. -/
def totalUnitsAggregatedOf (rows : List MongoDataRow) (mould : String)
    (dateRange : DateRange) : ℚ :=
  ((rows.filter (monthlyMouldPred mould)).map (monthlyUnitsContribution dateRange)).sum

/-- The real-data monthly series: pre-populate the buckets, aggregate the
filtered documents, sort the entries by `YYYY-MM` key and strip the key. -/
def monthlySeriesOf (rows : List MongoDataRow) (mould : String) (dateRange : DateRange) :
    List MonthlyDefectRateData :=
  let mouldFilteredDocs := rows.filter (monthlyMouldPred mould)
  let m0 := prePopulateMonths 600 dateRange.startDate dateRange.endDate []
  let m := mouldFilteredDocs.foldl (monthlyAggStep dateRange) m0
  (List.insertionSort (fun a b : String × MBucket => (strLeB a.1 b.1 = true : Prop)) m).map
    (fun e =>
      (⟨e.2.month, e.2.unitsProduced, e.2.defectCount,
        if 0 < e.2.unitsProduced then e.2.defectCount / e.2.unitsProduced * 100
        else 0⟩ : MonthlyDefectRateData))

/-- Runtime result shape of `calculateMonthlyDefectRateData`: the monthly
series, or — on the zero-match branch, faithfully to the untyped source —
a defect-reason array. -/
inductive MonthlyFnResult where
  | series (xs : List MonthlyDefectRateData)
  | reasons (xs : List DefectReasonData)
deriving DecidableEq, Repr

/-- `calculateMonthlyDefectRateData` of `kpiService`. -/
def calculateMonthlyDefectRateData (store : StoreResult) (machine mould : String)
    (dateRange : DateRange) (rand : ℕ → ℚ) : Except JsError MonthlyFnResult :=
  let tryBody : Except JsError MonthlyFnResult :=
    match store with
    | .failure => .error ⟨"Network Error"⟩
    | .success .malformed => .ok (.series (generateTestMonthlyData rand dateRange mould))
    | .success (.rawRows _) => .ok (.series (generateTestMonthlyData rand dateRange mould))
    | .success (.rows mongoRows) =>
      let mouldFilteredDocs := mongoRows.filter (monthlyMouldPred mould)
      if mouldFilteredDocs.isEmpty then
        .ok (.reasons (generateTestDefectReasonData mould 72))
      else if totalUnitsAggregatedOf mongoRows mould dateRange = 0 then
        .ok (.series (generateTestMonthlyData rand dateRange mould))
      else
        .ok (.series (monthlySeriesOf mongoRows mould dateRange))
  match tryBody with
  | .ok v => .ok v
  | .error _ => .ok (.series (generateTestMonthlyData rand dateRange mould))

/-- `getTotalRejectionUnits` of `kpiService`: the mould-filtered `D52`
total of its own fetch, with every miss or failure degrading to the
synthetic monthly total. -/
def getTotalRejectionUnits (store : StoreResult) (machine mould : String)
    (dateRange : DateRange) (rand : ℕ → ℚ) : ℚ :=
  let testTotal := ((generateTestMonthlyData rand dateRange mould).map (·.defectUnits)).sum
  match store with
  | .failure => testTotal
  | .success .malformed => testTotal
  | .success (.rawRows _) => testTotal
  | .success (.rows mongoRows) =>
    let mouldFilteredDocs := mongoRows.filter (totalRejMouldPred mould)
    if mouldFilteredDocs.isEmpty then testTotal
    else sumNumeric mouldFilteredDocs (·.D52)

/-- Admission test of `calculateDefectReasonBreakdown`: the document must
carry a parseable primary timestamp inside the closed range, and a
numeric, strictly positive `D52`; the value is that count. -/
def breakdownCount? (dateRange : DateRange) (row : MongoDataRow) : Option ℚ :=
  match row.timestamp with
  | none => none
  | some none => none
  | some (some ts) =>
    if PlainDate.ltb ts dateRange.startDate || PlainDate.ltb dateRange.endDate ts then none
    else
      match numIfPresent (row.field (·.D52)) with
      | some q => if q ≤ 0 then none else some q
      | none => none

/-- Reason text of `calculateDefectReasonBreakdown`: the trimmed `D53`
when present and not blank, `"null"` or `"undefined"`; else the sentinel
`"Unknown"`. -/
def breakdownReasonOf (row : MongoDataRow) : String :=
  match row.field (·.D53) with
  | none => "Unknown"
  | some f =>
    let reasonStr := strTrim f.jsString
    if reasonStr != "" && reasonStr != "null" && reasonStr != "undefined" then reasonStr
    else "Unknown"

/-- The defect-reason map and total of `calculateDefectReasonBreakdown`. -/
def breakdownFold (dateRange : DateRange) (docs : List MongoDataRow) :
    List (String × ℚ) × ℚ :=
  reasonFold (breakdownCount? dateRange) breakdownReasonOf docs

/-- `calculateDefectReasonBreakdown` of `kpiService`.  `auxStore` is the
outcome of the extra fetch performed by `getTotalRejectionUnits` on the
fallback paths. -/
def calculateDefectReasonBreakdown (store auxStore : StoreResult) (machine mould : String)
    (dateRange : DateRange) (rand : ℕ → ℚ) : Except JsError (List DefectReasonData) :=
  let fallback :=
    generateTestDefectReasonData mould
      (getTotalRejectionUnits auxStore machine mould dateRange rand)
  let tryBody : Except JsError (List DefectReasonData) :=
    match store with
    | .failure => .error ⟨"Network Error"⟩
    | .success .malformed => .ok fallback
    | .success (.rawRows _) => .ok fallback
    | .success (.rows mongoRows) =>
      let mouldFilteredDocs := mongoRows.filter (breakdownMouldPred mould)
      if mouldFilteredDocs.isEmpty then .ok fallback
      else
        let agg := breakdownFold dateRange mouldFilteredDocs
        let totalRejectionUnits := agg.2
        if totalRejectionUnits = 0 || agg.1.isEmpty then .ok fallback
        else
          .ok (List.insertionSort (fun a b : DefectReasonData => (b.count ≤ a.count : Prop))
            (agg.1.map (fun e =>
              ({ name := e.1
                 value := if 0 < totalRejectionUnits then e.2 / totalRejectionUnits * 100 else 0
                 count := e.2
                 color := none } : DefectReasonData))))
  match tryBody with
  | .ok v => .ok v
  | .error _ => .ok fallback

/-- Production value test of the production-vs-target filter:
`parseFloat(String(row.data?.D6 || 0))` must be a number `>= 0`. -/
def pvtHasProd (row : MongoDataRow) : Bool :=
  match parseFloatQ (jsStringOrZero (row.field (·.D6))) with
  | some q => decide (0 ≤ q)
  | none => false

/-- Target value test of the production-vs-target filter, on `D10`. -/
def pvtHasTarget (row : MongoDataRow) : Bool :=
  match parseFloatQ (jsStringOrZero (row.field (·.D10))) with
  | some q => decide (0 ≤ q)
  | none => false

/-- JS strict equality `row.data?.D17 === mould` against a string key. -/
def strictEqStr (v : Option FieldVal) (s : String) : Bool :=
  match v with
  | some (.vstr t) => t == s
  | _ => false

/-- Row filter of `calculateProductionVsTargetData`: strict (untrimmed)
mould equality plus at least one usable production or target value. -/
def pvtRowPred (mould : String) (row : MongoDataRow) : Bool :=
  strictEqStr (row.field (·.D17)) mould && (pvtHasProd row || pvtHasTarget row)

/-- One bucket of the production-vs-target aggregation. -/
structure PvtBucket where
  production : ℚ
  target : ℚ
  count : ℚ
deriving DecidableEq, Repr

/-- Per-document step of the production-vs-target aggregation, keyed by
the `Mon YYYY` label of the document's parseable timestamp. -/
def pvtStep (m : List (String × PvtBucket)) (row : MongoDataRow) :
    List (String × PvtBucket) :=
  match row.timestamp with
  | none => m
  | some none => m
  | some (some date) =>
    let monthKey := monthLabelOf date
    let production :=
      match parseFloatQ (jsStringOrZero (row.field (·.D6))) with
      | some q => q
      | none => 0
    let target :=
      match parseFloatQ (jsStringOrZero (row.field (·.D10))) with
      | some q => q
      | none => 0
    let m1 := if amapHas m monthKey then m else amapSet m monthKey ⟨0, 0, 0⟩
    amapUpdate
      (fun b => ⟨b.production + production, b.target + target, b.count + 1⟩) m1 monthKey

/-- Fixed month-name order used by the production-vs-target sort. -/
def monthOrder : List String :=
  ["Jan", "Feb", "Mar", "Apr", "May", "Jun", "Jul", "Aug", "Sep", "Oct", "Nov", "Dec"]

/-- `indexOf` into the month-name order, `-1` when absent. -/
def monthOrderIdx (s : String) : ℤ :=
  match monthOrder.findIdx? (· == s) with
  | some i => (i : ℤ)
  | none => -1

/-- `generateTestProductionVsTargetData` of `kpiService`. -/
def generateTestProductionVsTargetData (rand : ℕ → ℚ) (mould : String) :
    List ProductionVsTargetData :=
  let baseProduction : ℚ := if mould == "PP TRAY NEW" then 1100 else 1200
  let baseTarget := baseProduction + 100
  [⟨"Jan", baseProduction + (jsFloor (rand 0 * 200) : ℚ), baseTarget + (jsFloor (rand 1 * 150) : ℚ)⟩,
   ⟨"Feb", baseProduction + (jsFloor (rand 2 * 200) : ℚ), baseTarget + (jsFloor (rand 3 * 150) : ℚ)⟩,
   ⟨"Mar", baseProduction + (jsFloor (rand 4 * 200) : ℚ), baseTarget + (jsFloor (rand 5 * 150) : ℚ)⟩,
   ⟨"Apr", baseProduction + (jsFloor (rand 6 * 200) : ℚ), baseTarget + (jsFloor (rand 7 * 150) : ℚ)⟩,
   ⟨"May", baseProduction + (jsFloor (rand 8 * 200) : ℚ), baseTarget + (jsFloor (rand 9 * 150) : ℚ)⟩,
   ⟨"Jun", baseProduction + (jsFloor (rand 10 * 200) : ℚ), baseTarget + (jsFloor (rand 11 * 150) : ℚ)⟩,
   ⟨"Jul", baseProduction + (jsFloor (rand 12 * 200) : ℚ), baseTarget + (jsFloor (rand 13 * 150) : ℚ)⟩]

/-- `calculateProductionVsTargetData` of `kpiService`. -/
def calculateProductionVsTargetData (store : StoreResult) (machine mould : String)
    (dateRange : DateRange) (rand : ℕ → ℚ) : Except JsError (List ProductionVsTargetData) :=
  let tryBody : Except JsError (List ProductionVsTargetData) :=
    match store with
    | .failure => .error ⟨"Network Error"⟩
    | .success .malformed => .error ⟨"Invalid API response format"⟩
    | .success (.rows apiData) =>
      if apiData.isEmpty then .ok (generateTestProductionVsTargetData rand mould)
      else
        let filteredData := apiData.filter (pvtRowPred mould)
        if filteredData.isEmpty then .ok (generateTestProductionVsTargetData rand mould)
        else
          let monthlyAggregation := filteredData.foldl pvtStep []
          let productionVsTargetData :=
            List.insertionSort
              (fun a b : ProductionVsTargetData =>
                (monthOrderIdx a.month ≤ monthOrderIdx b.month : Prop))
              (monthlyAggregation.map (fun e =>
                ({ month := ((e.1.splitOn " ").headD "")
                   production := (jsRound e.2.production : ℚ)
                   target := (jsRound e.2.target : ℚ) } : ProductionVsTargetData)))
          if productionVsTargetData.isEmpty
          then .ok (generateTestProductionVsTargetData rand mould)
          else .ok productionVsTargetData
    | .success (.rawRows apiData) =>
      if apiData.isEmpty then .ok (generateTestProductionVsTargetData rand mould)
      else
        let filteredData := apiData.filter (pvtRowPred mould)
        if filteredData.isEmpty then .ok (generateTestProductionVsTargetData rand mould)
        else
          let monthlyAggregation := filteredData.foldl pvtStep []
          let productionVsTargetData :=
            List.insertionSort
              (fun a b : ProductionVsTargetData =>
                (monthOrderIdx a.month ≤ monthOrderIdx b.month : Prop))
              (monthlyAggregation.map (fun e =>
                ({ month := ((e.1.splitOn " ").headD "")
                   production := (jsRound e.2.production : ℚ)
                   target := (jsRound e.2.target : ℚ) } : ProductionVsTargetData)))
          if productionVsTargetData.isEmpty
          then .ok (generateTestProductionVsTargetData rand mould)
          else .ok productionVsTargetData
  match tryBody with
  | .ok v => .ok v
  | .error _ => .ok (generateTestProductionVsTargetData rand mould)

/-- Specification-side reading of the cycle-time lookup: take the first
entry whose name matches, and return its cycle-time field if that field is
present and a finite positive number, else return `0`; any non-row
outcome degrades to `0`. -/
def cycleTimeFirstMatchSpec (store : StoreResult) (mould : String) : ℚ :=
  match store with
  | .success (.rows rs) =>
    match rs.find? (cycleMatchOk (strTrim mould)) with
    | some doc => (cycleValid? doc).getD 0
    | none => 0
  | _ => 0

/-- Amended reading of the cycle-time lookup: take the first entry whose
name matches and whose cycle-time field is a finite positive number, and
return that value; `0` when no such entry exists or on any degraded
outcome. -/
def cycleTimeFirstValidSpec (store : StoreResult) (mould : String) : ℚ :=
  match store with
  | .success (.rows rs) =>
    match rs.find? (fun doc => cycleMatchOk (strTrim mould) doc && (cycleValid? doc).isSome) with
    | some doc => (cycleValid? doc).getD 0
    | none => 0
  | _ => 0

/-- Specification-side mould filter: the document has a present,
truthy mold field whose trimmed string equals the trimmed selection
key (case-sensitively). -/
def trimMouldMatchSpec (mould : String) (doc : MongoDataRow) : Bool :=
  match doc.data with
  | some d => fieldTruthy d.D17 && (strTrim (jsStringOrEmpty d.D17) == strTrim mould)
  | none => false

/-- The rejection penalty is non-negative on non-negative inputs. -/
theorem rejectionPenalty_nonneg (u r : ℚ) (hu : 0 ≤ u) (hr : 0 ≤ r) :
    0 ≤ rejectionPenalty u r := by
  unfold rejectionPenalty
  split_ifs with h
  · exact mul_nonneg (div_nonneg hr hu) (by norm_num)
  · exact le_refl 0

/-- The expected runtime is non-negative on non-negative inputs. -/
theorem expectedRuntimeHours_nonneg (c u : ℚ) (hc : 0 ≤ c) (hu : 0 ≤ u) :
    0 ≤ expectedRuntimeHours c u := by
  unfold expectedRuntimeHours
  split_ifs with h
  · exact div_nonneg (mul_nonneg hc hu) (by norm_num)
  · exact le_refl 0

/-- The downtime penalty is non-negative on non-negative inputs. -/
theorem downtimePenalty_nonneg (d e : ℚ) (hd : 0 ≤ d) (he : 0 ≤ e) :
    0 ≤ downtimePenalty d e := by
  unfold downtimePenalty
  split_ifs with h
  · exact mul_nonneg (div_nonneg hd he) (by norm_num)
  · exact le_refl 0

/-- Two-decimal rounding keeps a value of `[0, 100]` inside `[0, 100]`. -/
theorem round2_bounds (x : ℚ) (h0 : 0 ≤ x) (h1 : x ≤ 100) :
    0 ≤ round2 x ∧ round2 x ≤ 100 := by
  unfold round2 jsRound
  constructor
  · apply div_nonneg _ (by norm_num : (0:ℚ) ≤ 100)
    have h : (0:ℤ) ≤ ⌊x * 100 + 1/2⌋ := Int.floor_nonneg.2 (by linarith)
    exact_mod_cast h
  · rw [div_le_iff₀ (by norm_num : (0:ℚ) < 100)]
    have hf : ⌊x * 100 + 1/2⌋ ≤ 10000 := by
      have hlt : ⌊x * 100 + 1/2⌋ < (10001 : ℤ) := by
        apply Int.floor_lt.2
        push_cast
        linarith
      omega
    have : ((⌊x * 100 + 1/2⌋ : ℤ) : ℚ) ≤ (10000 : ℚ) := by exact_mod_cast hf
    linarith

/-- Claim C3: for all non-negative finite inputs, including a zero cycle
time, the mold health index equals `max 0 (100 - (rejectionPenalty +
downtimePenalty))` rounded to two decimals and lies in `[0, 100]`; each
penalty is `0` when its denominator is `0`, and each penalty term is
individually unbounded above. -/
theorem C3_mold_health_index (u r d c : ℚ)
    (hu : 0 ≤ u) (hr : 0 ≤ r) (hd : 0 ≤ d) (hc : 0 ≤ c) :
    calculateMoldHealthIndex u r d c
      = round2 (max 0 (100 - (rejectionPenalty u r
          + downtimePenalty d (expectedRuntimeHours c u)))) ∧
    0 ≤ calculateMoldHealthIndex u r d c ∧
    calculateMoldHealthIndex u r d c ≤ 100 ∧
    (u = 0 → rejectionPenalty u r = 0) ∧
    (expectedRuntimeHours c u = 0 → downtimePenalty d (expectedRuntimeHours c u) = 0) ∧
    (∀ B : ℚ, ∃ u' r', 0 ≤ u' ∧ 0 ≤ r' ∧ B ≤ rejectionPenalty u' r') ∧
    (∀ B : ℚ, ∃ u' d' c', 0 ≤ u' ∧ 0 ≤ d' ∧ 0 ≤ c'
      ∧ B ≤ downtimePenalty d' (expectedRuntimeHours c' u')) := by
  have hrp := rejectionPenalty_nonneg u r hu hr
  have her := expectedRuntimeHours_nonneg c u hc hu
  have hdp := downtimePenalty_nonneg d (expectedRuntimeHours c u) hd her
  have hx0 : 0 ≤ max 0 (100 - (rejectionPenalty u r
      + downtimePenalty d (expectedRuntimeHours c u))) := le_max_left 0 _
  have hx1 : max 0 (100 - (rejectionPenalty u r
      + downtimePenalty d (expectedRuntimeHours c u))) ≤ 100 :=
    max_le (by norm_num) (by linarith)
  have hb := round2_bounds _ hx0 hx1
  refine ⟨rfl, hb.1, hb.2, ?_, ?_, ?_, ?_⟩
  · intro h0
    unfold rejectionPenalty
    rw [h0]
    norm_num
  · intro h0
    unfold downtimePenalty
    rw [h0]
    norm_num
  · intro B
    refine ⟨1, max B 0, by norm_num, le_max_right B 0, ?_⟩
    unfold rejectionPenalty
    rw [if_pos (by norm_num : (0:ℚ) < 1), div_one]
    rcases le_total B 0 with h | h
    · have : 0 ≤ max B 0 * 100 := mul_nonneg (le_max_right B 0) (by norm_num)
      linarith
    · rw [max_eq_left h]
      linarith
  · intro B
    refine ⟨1, max B 0, 3600, by norm_num, le_max_right B 0, by norm_num, ?_⟩
    have he1 : expectedRuntimeHours 3600 1 = 1 := by
      unfold expectedRuntimeHours
      rw [if_pos ⟨by norm_num, by norm_num⟩]
      norm_num
    rw [he1]
    unfold downtimePenalty
    rw [if_pos (by norm_num : (0:ℚ) < 1), div_one]
    rcases le_total B 0 with h | h
    · have : 0 ≤ max B 0 * 100 := mul_nonneg (le_max_right B 0) (by norm_num)
      linarith
    · rw [max_eq_left h]
      linarith

/-- Witness for C3 at a concrete input. -/
theorem C3_mold_health_index_w :
    0 ≤ calculateMoldHealthIndex 100 5 2 30 ∧ calculateMoldHealthIndex 100 5 2 30 ≤ 100 :=
  ⟨(C3_mold_health_index 100 5 2 30 (by norm_num) (by norm_num) (by norm_num)
      (by norm_num)).2.1,
   (C3_mold_health_index 100 5 2 30 (by norm_num) (by norm_num) (by norm_num)
      (by norm_num)).2.2.1⟩

/-- Claim C8: the fixed quarter selectors resolve to the full fixed
quarter ranges at the 08:00 boundary, independently of the clock value and
the custom-date arguments; in particular Q1 of 2025 always resolves to
`[2025-01-01T08:00, 2025-03-31T08:00]`. -/
theorem C8_fixed_quarters (now : PlainDate) (cs ce : Option PlainDate) (year : ℤ) :
    getDateRangeForTimePeriod "q1" cs ce 2025 now
      = .ok ⟨mkDate 2025 0 1 8, mkDate 2025 2 31 8, "Q1 2025"⟩ ∧
    getDateRangeForTimePeriod "q1" cs ce year now
      = .ok ⟨mkDate year 0 1 8, mkDate year 2 31 8, "Q1 " ++ toString year⟩ ∧
    getDateRangeForTimePeriod "q2" cs ce year now
      = .ok ⟨mkDate year 3 1 8, mkDate year 5 30 8, "Q2 " ++ toString year⟩ ∧
    getDateRangeForTimePeriod "q3" cs ce year now
      = .ok ⟨mkDate year 6 1 8, mkDate year 8 30 8, "Q3 " ++ toString year⟩ ∧
    getDateRangeForTimePeriod "q4" cs ce year now
      = .ok ⟨mkDate year 9 1 8, mkDate year 11 31 8, "Q4 " ++ toString year⟩ :=
  ⟨rfl, rfl, rfl, rfl, rfl⟩

/-- Claim C9: `getQuarterDates` succeeds exactly on the quarter numbers
1 to 4 and signals an invalid-argument failure on every other number. -/
theorem C9_quarter_contract (q year : ℤ) :
    (getQuarterDates q year).isOk = (q == 1 || q == 2 || q == 3 || q == 4) := by
  unfold getQuarterDates
  split_ifs with h1 h2 h3 h4 <;>
    simp_all [Except.isOk, Except.toBool, beq_iff_eq]

/-- Claim C2: when the primary fetch fails in transport or returns an
unparseable payload, each of the four public KPI operations returns a
structurally valid result normally — no thrown error reaches the
caller, for any selection keys, range, random source, or outcome of the
secondary fetches. -/
theorem C2_fault_tolerance (store cycleStore auxStore : StoreResult)
    (machine mould : String) (dateRange : DateRange) (rand : ℕ → ℚ)
    (h : store = .failure ∨ store = .success .malformed) :
    (∃ r, calculateKPIs store cycleStore machine mould dateRange rand = .ok r) ∧
    (∃ xs, calculateMonthlyDefectRateData store machine mould dateRange rand
        = .ok (.series xs)) ∧
    (∃ xs, calculateDefectReasonBreakdown store auxStore machine mould dateRange rand
        = .ok xs) ∧
    (∃ xs, calculateProductionVsTargetData store machine mould dateRange rand
        = .ok xs) := by
  rcases h with h | h <;> subst h <;>
    exact ⟨⟨_, rfl⟩, ⟨_, rfl⟩, ⟨_, rfl⟩, ⟨_, rfl⟩⟩

/-- Witness for C2 at a concrete fault. -/
theorem C2_fault_tolerance_w :
    (StoreResult.failure = .failure ∨ StoreResult.failure = .success .malformed) ∧
    (∃ r, calculateKPIs .failure .failure "M1" "MOLD"
        ⟨mkDate 2025 0 1 8, mkDate 2025 2 31 8, "Q1 2025"⟩ (fun _ => 0) = .ok r) :=
  ⟨Or.inl rfl,
   (C2_fault_tolerance .failure .failure .failure "M1" "MOLD"
     ⟨mkDate 2025 0 1 8, mkDate 2025 2 31 8, "Q1 2025"⟩ (fun _ => 0) (Or.inl rfl)).1⟩

/-- A scan whose stream holds no downtime-classified documents and whose
anchor is negative collects no candidates. -/
theorem postDowntimeScan_nil_of_no_downtime (docs : List MongoDataRow) :
    (∀ d ∈ docs, isDowntimeDoc d = false) →
    ∀ (l : ℤ) (n : ℕ), l < 0 → postDowntimeScan docs l n = [] := by
  induction docs with
  | nil => intro _ l n _; rfl
  | cons doc rest ih =>
    intro h l n hl
    have hd : isDowntimeDoc doc = false := h doc (List.mem_cons_self _ _)
    have hrest : ∀ d ∈ rest, isDowntimeDoc d = false :=
      fun d hm => h d (List.mem_cons_of_mem _ hm)
    have hdec : decide (0 ≤ l) = false := decide_eq_false (not_le.mpr hl)
    simp only [postDowntimeScan, hd, Bool.false_eq_true, if_false, hdec, Bool.and_false,
      Bool.false_and]
    exact ih hrest l (n + 1) hl

/-- Invariant of the post-downtime scan: every collected pair sits at its
stream position, is production-classified and not downtime-classified,
and either the incoming anchor was already set or a strictly earlier
stream position is downtime-classified. -/
theorem postDowntimeScan_mem (docs : List MongoDataRow) :
    ∀ (l : ℤ) (n i : ℕ) (d : MongoDataRow), l < (n : ℤ) →
    (i, d) ∈ postDowntimeScan docs l n →
    n ≤ i ∧ docs.get? (i - n) = some d ∧ isProductionDoc d = true ∧
      isDowntimeDoc d = false ∧
      (0 ≤ l ∨ ∃ j, n ≤ j ∧ j < i ∧
        ∃ dj, docs.get? (j - n) = some dj ∧ isDowntimeDoc dj = true) := by
  induction docs with
  | nil =>
    intro l n i d _ hmem
    simp [postDowntimeScan] at hmem
  | cons doc rest ih =>
    intro l n i d hln hmem
    by_cases hdt : isDowntimeDoc doc = true
    · have hself : decide ((n : ℤ) < ((n : ℕ) : ℤ)) = false := decide_eq_false (lt_irrefl _)
      simp only [postDowntimeScan, hdt, if_true, hself, Bool.and_false,
        Bool.false_eq_true] at hmem
      have hln' : (n : ℤ) < ((n + 1 : ℕ) : ℤ) := by push_cast; linarith
      obtain ⟨hni, hget, hprod, hdfalse, _⟩ := ih (n : ℤ) (n + 1) i d hln' hmem
      have hi : n ≤ i := by omega
      have hsub : i - n = (i - (n + 1)) + 1 := by omega
      refine ⟨hi, ?_, hprod, hdfalse, Or.inr ⟨n, le_refl n, by omega, doc, ?_, hdt⟩⟩
      · rw [hsub, List.get?_cons_succ]
        exact hget
      · rw [Nat.sub_self, List.get?_cons_zero]
    · have hdf : isDowntimeDoc doc = false := by
        cases hb : isDowntimeDoc doc
        · rfl
        · exact absurd hb hdt
      simp only [postDowntimeScan, hdf, Bool.false_eq_true, if_false] at hmem
      have hln' : l < ((n + 1 : ℕ) : ℤ) := by push_cast at hln ⊢; linarith
      by_cases hg : (isProductionDoc doc && decide (0 ≤ l)
          && decide (l < ((n : ℕ) : ℤ))) = true
      · rw [if_pos hg] at hmem
        rcases List.mem_cons.1 hmem with heq | hmem'
        · have hi : i = n := congrArg Prod.fst heq
          have hdd : d = doc := congrArg Prod.snd heq
          subst hi; subst hdd
          have hg' := hg
          simp only [Bool.and_eq_true, decide_eq_true_eq] at hg'
          exact ⟨le_refl i, by rw [Nat.sub_self, List.get?_cons_zero], hg'.1.1, hdf,
            Or.inl hg'.1.2⟩
        · obtain ⟨hni, hget, hprod, hdfalse, hdisj⟩ := ih l (n + 1) i d hln' hmem'
          have hi : n ≤ i := by omega
          have hsub : i - n = (i - (n + 1)) + 1 := by omega
          refine ⟨hi, ?_, hprod, hdfalse, ?_⟩
          · rw [hsub, List.get?_cons_succ]
            exact hget
          · rcases hdisj with h0 | ⟨j, hj1, hj2, dj, hdj, hdjdt⟩
            · exact Or.inl h0
            · refine Or.inr ⟨j, by omega, hj2, dj, ?_, hdjdt⟩
              have hjs : j - n = (j - (n + 1)) + 1 := by omega
              rw [hjs, List.get?_cons_succ]
              exact hdj
      · rw [if_neg hg] at hmem
        obtain ⟨hni, hget, hprod, hdfalse, hdisj⟩ := ih l (n + 1) i d hln' hmem
        have hi : n ≤ i := by omega
        have hsub : i - n = (i - (n + 1)) + 1 := by omega
        refine ⟨hi, ?_, hprod, hdfalse, ?_⟩
        · rw [hsub, List.get?_cons_succ]
          exact hget
        · rcases hdisj with h0 | ⟨j, hj1, hj2, dj, hdj, hdjdt⟩
          · exact Or.inl h0
          · refine Or.inr ⟨j, by omega, hj2, dj, ?_, hdjdt⟩
            have hjs : j - n = (j - (n + 1)) + 1 := by omega
            rw [hjs, List.get?_cons_succ]
            exact hdj

/-- Claim C4: a stream with no downtime-classified documents yields an
empty post-event candidate set and a rate of `0`, and — on any stream — a
document is collected only when it is production-classified, not itself
downtime-classified, and some strictly earlier scan position is
downtime-classified. -/
theorem C4_post_event_detector (documents : List MongoDataRow) (mould : String) :
    ((∀ d ∈ documents, isDowntimeDoc d = false) →
      postDowntimeScan (sortedDocsOf documents) (-1) 0 = [] ∧
      calculatePostDowntimeDR documents mould = 0) ∧
    (∀ (stream : List MongoDataRow) (i : ℕ) (d : MongoDataRow),
      (i, d) ∈ postDowntimeScan stream (-1) 0 →
      isProductionDoc d = true ∧ isDowntimeDoc d = false ∧
      ∃ j, j < i ∧ ∃ dj, stream.get? j = some dj ∧ isDowntimeDoc dj = true) := by
  constructor
  · intro h
    have hsorted : ∀ d ∈ sortedDocsOf documents, isDowntimeDoc d = false := by
      intro d hd
      apply h
      have hmem := (List.mem_insertionSort _).1 hd
      exact List.mem_of_mem_filter hmem
    have hscan := postDowntimeScan_nil_of_no_downtime (sortedDocsOf documents)
      hsorted (-1) 0 (by norm_num)
    refine ⟨hscan, ?_⟩
    unfold calculatePostDowntimeDR
    simp only [hscan, List.map_nil, List.filter_nil]
    simp [sumNumeric]
  · intro stream i d hmem
    have hln : (-1 : ℤ) < ((0 : ℕ) : ℤ) := by norm_num
    obtain ⟨-, hget, hprod, hdt, hdisj⟩ := postDowntimeScan_mem stream (-1) 0 i d hln hmem

    rcases hdisj with hge | ⟨j, -, hji, dj, hdj, hdjdt⟩
    · norm_num at hge
    · refine ⟨hprod, hdt, j, hji, dj, ?_, hdjdt⟩
      simpa using hdj

/-- Witness document for C4: production-classified, never downtime. -/
def c4Doc : MongoDataRow where
  data := some { DocData.empty with
    D2 := some (.vstr "RUNNING")
    D6 := some (.vnum 10)
    D17 := some (.vstr "M") }
  timestamp := some (some (mkDate 2025 0 2 10))
  altTimestamps := []

/-- Witness for C4 at a concrete downtime-free stream. -/
theorem C4_post_event_detector_w :
    (∀ d ∈ [c4Doc], isDowntimeDoc d = false) ∧
    calculatePostDowntimeDR [c4Doc] "M" = 0 :=
  ⟨by with_unfolding_all decide,
   ((C4_post_event_detector [c4Doc] "M").1 (by with_unfolding_all decide)).2⟩

/-- The cycle-time loop returns the valid cycle time of the first
name-matching entry that has one, and `0` when no entry qualifies. -/
theorem cycleLoop_eq_firstValid (sel : String) (rs : List MongoDataRow) :
    cycleLoop sel rs
      = (match rs.find? (fun doc => cycleMatchOk sel doc && (cycleValid? doc).isSome) with
         | some doc => (cycleValid? doc).getD 0
         | none => 0) := by
  induction rs with
  | nil => rfl
  | cons doc rest ih =>
    by_cases hm : cycleMatchOk sel doc = true
    · cases hv : cycleValid? doc with
      | some q =>
        have hp : (cycleMatchOk sel doc && (cycleValid? doc).isSome) = true := by
          rw [hm, hv]; rfl
        simp [cycleLoop, hm, hv, List.find?_cons, hp]
      | none =>
        have hp : (cycleMatchOk sel doc && (cycleValid? doc).isSome) = false := by
          rw [hv]; simp
        simp only [cycleLoop, hm, if_true, hv, List.find?_cons, hp]
        exact ih
    · have hp : (cycleMatchOk sel doc && (cycleValid? doc).isSome) = false := by
        cases hb : cycleMatchOk sel doc
        · rfl
        · exact absurd hb hm
      simp only [cycleLoop, hm, Bool.false_eq_true, if_false, List.find?_cons, hp]
      exact ih

/-- Claim C5 (amended): the cycle-time lookup returns the cycle-time value
of the first entry whose name matches the trimmed mould and whose
cycle-time field is a finite positive number, and `0` otherwise
(including on every degraded fetch outcome). -/
theorem C5_cycle_time_amended (store : StoreResult) (mould : String) :
    fetchCycleTime store mould = cycleTimeFirstValidSpec store mould := by
  cases store with
  | failure => rfl
  | success p =>
    cases p with
    | rows rs => exact cycleLoop_eq_firstValid (strTrim mould) rs
    | rawRows rs => rfl
    | malformed => rfl

/-- Reference rows for the C5 counterexample: two entries for the same
mould, the first with an unparseable cycle time, the second with `5`. -/
def c5Rows : List MongoDataRow :=
  [{ data := some { DocData.empty with
       D0 := some (.vstr "M")
       D2 := some (.vstr "abc") }
     timestamp := none
     altTimestamps := [] },
   { data := some { DocData.empty with
       D0 := some (.vstr "M")
       D2 := some (.vnum 5) }
     timestamp := none
     altTimestamps := [] }]

/-- Claim C5 counterexample: on `c5Rows` the code keeps scanning past the
first name-matching entry (invalid cycle time) and returns `5`, while the
claimed first-match semantics returns `0`. -/
theorem C5_cycle_time_counterexample :
    fetchCycleTime (.success (.rows c5Rows)) "M" = 5 ∧
    cycleTimeFirstMatchSpec (.success (.rows c5Rows)) "M" = 0 ∧ (5 : ℚ) ≠ 0 :=
  ⟨by with_unfolding_all decide, by with_unfolding_all decide, by norm_num⟩

/-- Reading a map after `Map.set`: the set key reads the new value, every
other key is untouched. -/
theorem amapGetD_amapSet {α : Type} (m : List (String × α)) (k r : String) (v d0 : α) :
    amapGetD (amapSet m k v) r d0 = if r = k then v else amapGetD m r d0 := by
  induction m with
  | nil =>
    by_cases h : r = k
    · subst h; simp [amapSet, amapGetD]
    · have h' : ¬(k = r) := fun hh => h hh.symm
      simp [amapSet, amapGetD, h, h']
  | cons e m ih =>
    by_cases he : e.1 = k
    · simp only [amapSet, beq_iff_eq, he, if_true]
      by_cases h : r = k
      · subst h; simp [amapGetD]
      · have h' : ¬(k = r) := fun hh => h hh.symm
        have he' : ¬(e.1 = r) := by rw [he]; exact h'
        simp [amapGetD, h, h', he']
    · simp only [amapSet, beq_iff_eq, he, if_false]
      by_cases hr : e.1 = r
      · have h : ¬(r = k) := by rw [← hr]; exact fun hh => he hh
        simp [amapGetD, hr, h]
      · simp only [amapGetD, beq_iff_eq, hr, if_false, ih]

/-- Characterization of the reason-aggregation fold from an arbitrary
accumulator: each reason's map entry grows by exactly the admitted counts
carrying that reason, and the grand total by all admitted counts. -/
theorem reasonFold_characterization (count? : MongoDataRow → Option ℚ)
    (reasonOf : MongoDataRow → String) (docs : List MongoDataRow) (r : String) :
    ∀ (m : List (String × ℚ)) (t : ℚ),
    amapGetD (docs.foldl (reasonStep count? reasonOf) (m, t)).1 r 0
      = amapGetD m r 0
        + (docs.map (fun doc =>
            match count? doc with
            | some c => if reasonOf doc = r then c else 0
            | none => 0)).sum ∧
    (docs.foldl (reasonStep count? reasonOf) (m, t)).2
      = t + (docs.map (fun doc => (count? doc).getD 0)).sum := by
  induction docs with
  | nil => intro m t; simp
  | cons doc rest ih =>
    intro m t
    cases hc : count? doc with
    | none =>
      simp only [List.foldl_cons, List.map_cons, List.sum_cons, reasonStep, hc,
        Option.getD_none]
      obtain ⟨ih1, ih2⟩ := ih m t
      constructor
      · rw [ih1]; ring
      · rw [ih2]; ring
    | some c =>
      simp only [List.foldl_cons, List.map_cons, List.sum_cons, reasonStep, hc,
        Option.getD_some]
      obtain ⟨ih1, ih2⟩ :=
        ih (amapSet m (reasonOf doc) (amapGetD m (reasonOf doc) 0 + c)) (t + c)
      constructor
      · rw [ih1, amapGetD_amapSet]
        by_cases hr : r = reasonOf doc
        · rw [if_pos hr, if_pos hr.symm, hr]; ring
        · rw [if_neg hr, if_neg (fun hh => hr hh.symm)]; ring
      · rw [ih2]; ring

/-- Claim C6 (amended): in both reason aggregations a mould-matching
document counts exactly when its rejection count is numeric and positive
(for the breakdown additionally carrying an in-range timestamp), its full
count accrues to its reason and to the grand total, and a blank or absent
reason falls to the sentinel — `"Unknown Reason"` in
`calculateTopRejectionReasons` but `"Unknown"` in
`calculateDefectReasonBreakdown`. -/
theorem C6_reason_aggregation_amended (documents : List MongoDataRow) (mould : String)
    (dateRange : DateRange) (r : String) :
    (amapGetD (topReasonsFold (documents.filter (topReasonsMouldPred mould))).1 r 0
      = ((documents.filter (topReasonsMouldPred mould)).map (fun doc =>
          match topReasonsCount? doc with
          | some c => if topReasonOf doc = r then c else 0
          | none => 0)).sum) ∧
    ((topReasonsFold (documents.filter (topReasonsMouldPred mould))).2
      = ((documents.filter (topReasonsMouldPred mould)).map
          (fun doc => (topReasonsCount? doc).getD 0)).sum) ∧
    (amapGetD (breakdownFold dateRange (documents.filter (breakdownMouldPred mould))).1 r 0
      = ((documents.filter (breakdownMouldPred mould)).map (fun doc =>
          match breakdownCount? dateRange doc with
          | some c => if breakdownReasonOf doc = r then c else 0
          | none => 0)).sum) ∧
    ((breakdownFold dateRange (documents.filter (breakdownMouldPred mould))).2
      = ((documents.filter (breakdownMouldPred mould)).map
          (fun doc => (breakdownCount? dateRange doc).getD 0)).sum) ∧
    (∀ doc : MongoDataRow, doc.field (·.D53) = none →
      topReasonOf doc = "Unknown Reason" ∧ breakdownReasonOf doc = "Unknown") := by
  obtain ⟨h1, h2⟩ := reasonFold_characterization topReasonsCount? topReasonOf
    (documents.filter (topReasonsMouldPred mould)) r ([]) 0
  obtain ⟨h3, h4⟩ := reasonFold_characterization (breakdownCount? dateRange) breakdownReasonOf
    (documents.filter (breakdownMouldPred mould)) r ([]) 0
  refine ⟨?_, ?_, ?_, ?_, ?_⟩
  · rw [topReasonsFold, reasonFold, h1]; simp [amapGetD]
  · rw [topReasonsFold, reasonFold, h2]; simp
  · rw [breakdownFold, reasonFold, h3]; simp [amapGetD]
  · rw [breakdownFold, reasonFold, h4]; simp
  · intro doc h
    constructor
    · simp [topReasonOf, h, fieldTruthy]
    · simp [breakdownReasonOf, h]

/-- Witness document for C6: positive rejection count, no reason field. -/
def c6BlankDoc : MongoDataRow where
  data := some { DocData.empty with
    D17 := some (.vstr "M")
    D52 := some (.vnum 5) }
  timestamp := some (some (mkDate 2025 0 15 10))
  altTimestamps := []

/-- Witness for C6 at a concrete blank-reason document. -/
theorem C6_reason_aggregation_amended_w :
    topReasonOf c6BlankDoc = "Unknown Reason" ∧ breakdownReasonOf c6BlankDoc = "Unknown" :=
  (C6_reason_aggregation_amended [] "M"
    ⟨mkDate 2025 0 1 8, mkDate 2025 2 31 8, "Q1 2025"⟩ "x").2.2.2.2 c6BlankDoc rfl

/-- The Q1 2025 range used by several concrete evaluations. -/
def q1Range2025 : DateRange := ⟨mkDate 2025 0 1 8, mkDate 2025 2 31 8, "Q1 2025"⟩

/-- Claim C6 counterexample: a mould-matching document with rejection
count 5 and no reason field lands — with its full count — under the
sentinel `"Unknown"`, not `"Unknown Reason"`, in the defect-reason
breakdown. -/
theorem C6_unknown_reason_counterexample :
    calculateDefectReasonBreakdown (.success (.rows [c6BlankDoc])) .failure "M1" "M"
        q1Range2025 (fun _ => 0)
      = .ok [⟨"Unknown", 100, 5, none⟩] ∧
    "Unknown" ≠ "Unknown Reason" :=
  ⟨by with_unfolding_all decide, by decide⟩

/-- The guarded trim-equality filter shape used by five aggregation paths
coincides with the spec-side trimmed-match predicate. -/
theorem guardedPred_eq_spec (mould : String) (doc : MongoDataRow) :
    (match doc.data with
     | none => false
     | some d =>
       if !fieldTruthy d.D17 then false
       else strTrim (jsStringOrEmpty d.D17) == strTrim mould)
      = trimMouldMatchSpec mould doc := by
  rcases doc with ⟨data, ts, alts⟩
  cases data with
  | none => rfl
  | some d =>
    cases hb : fieldTruthy d.D17 <;> simp [trimMouldMatchSpec, hb]

/-- Claim C7 (amended): the KPI, monthly, downtime, top-reasons,
breakdown and rejection-total filters all implement the trimmed
case-sensitive match of the spec, the post-downtime candidate filter
implements it with an absent mold field read as the empty string, but the
production-vs-target filter instead requires raw strict equality of the
mold field plus a usable production or target value. -/
theorem C7_mould_filter_amended (doc : MongoDataRow) (mould : String) :
    kpiMouldPred mould doc = trimMouldMatchSpec mould doc ∧
    monthlyMouldPred mould doc = trimMouldMatchSpec mould doc ∧
    downtimeMouldPred mould doc = trimMouldMatchSpec mould doc ∧
    topReasonsMouldPred mould doc = trimMouldMatchSpec mould doc ∧
    breakdownMouldPred mould doc = trimMouldMatchSpec mould doc ∧
    totalRejMouldPred mould doc = trimMouldMatchSpec mould doc ∧
    postDowntimeMouldPred mould doc
      = (strTrim (jsStringOrEmpty (doc.field (·.D17))) == strTrim mould) ∧
    pvtRowPred mould doc
      = (strictEqStr (doc.field (·.D17)) mould && (pvtHasProd doc || pvtHasTarget doc)) :=
  ⟨guardedPred_eq_spec mould doc, guardedPred_eq_spec mould doc,
   guardedPred_eq_spec mould doc, guardedPred_eq_spec mould doc,
   guardedPred_eq_spec mould doc, guardedPred_eq_spec mould doc, rfl, rfl⟩

/-- Counterexample document for C7: mold field with a trailing blank. -/
def c7Doc : MongoDataRow where
  data := some { DocData.empty with
    D17 := some (.vstr "M ")
    D6 := some (.vnum 10) }
  timestamp := some (some (mkDate 2025 0 15 10))
  altTimestamps := []

/-- Claim C7 counterexample: the same document passes the KPI filter
(trimmed match) but fails the production-vs-target filter (raw strict
equality), so the mold filter is not uniform across aggregation paths. -/
theorem C7_mould_filter_counterexample :
    kpiMouldPred "M" c7Doc = true ∧ pvtRowPred "M" c7Doc = false :=
  ⟨by with_unfolding_all decide, by with_unfolding_all decide⟩

/-- The resolved custom range 2025-01-31T08:00 .. 2025-03-31T08:00. -/
def c1Range : DateRange :=
  ⟨mkDate 2025 0 31 8, mkDate 2025 2 31 8, "Custom (1/31/2025 - 3/31/2025)"⟩

/-- A mould-matching January document inside `c1Range`. -/
def c1Doc : MongoDataRow where
  data := some { DocData.empty with
    D17 := some (.vstr "M")
    D6 := some (.vnum 100) }
  timestamp := some (some (mkDate 2025 0 31 9))
  altTimestamps := []

/-- Claim C1 (code bug): the calendar resolver produces the custom range
Jan 31 .. Mar 31 2025, yet on that range the monthly series holds buckets
for January and March only — the pre-population cursor steps from Jan 31
to "Feb 31", which normalizes into March before `setDate(1)`, so the
February bucket inside the range is never seeded and is absent from the
output even though real data flowed (January has 100 units). -/
theorem C1_february_bucket_missing :
    getDateRangeForTimePeriod "custom" (some (mkDate 2025 0 31 0)) (some (mkDate 2025 2 31 0))
        2025 (mkDate 2025 5 1 12) = .ok c1Range ∧
    calculateMonthlyDefectRateData (.success (.rows [c1Doc])) "SDPLYPLC_A1_Timeline" "M"
        c1Range (fun _ => 0)
      = .ok (.series [⟨"Jan 2025", 100, 0, 0⟩, ⟨"Mar 2025", 0, 0, 0⟩]) ∧
    ([⟨"Jan 2025", 100, 0, 0⟩, ⟨"Mar 2025", 0, 0, 0⟩] : List MonthlyDefectRateData).all
      (fun e => !(e.month == "Feb 2025")) = true :=
  ⟨by decide, by with_unfolding_all decide, by decide⟩

/-- Total units stored across the buckets of a monthly aggregation map. -/
def bucketUnitsSum (m : List (String × MBucket)) : ℚ :=
  (m.map (fun e => e.2.unitsProduced)).sum

/-- A key just set is present. -/
theorem amapHas_amapSet_self {α : Type} (m : List (String × α)) (k : String) (v : α) :
    amapHas (amapSet m k v) k = true := by
  induction m with
  | nil => simp [amapSet, amapHas]
  | cons e m ih =>
    by_cases he : (e.1 == k) = true
    · simp [amapSet, amapHas, he]
    · simp only [amapSet, he, Bool.false_eq_true, if_false, amapHas, Bool.or_eq_true]
      exact Or.inr ih

/-- Seeding an absent key adds that bucket's units to the map total. -/
theorem bucketUnitsSum_amapSet (m : List (String × MBucket)) (k : String) (v : MBucket)
    (h : amapHas m k = false) :
    bucketUnitsSum (amapSet m k v) = bucketUnitsSum m + v.unitsProduced := by
  induction m with
  | nil => simp [amapSet, bucketUnitsSum]
  | cons e m ih =>
    simp only [amapHas, Bool.or_eq_false_iff] at h
    simp only [amapSet, h.1, Bool.false_eq_true, if_false, bucketUnitsSum, List.map_cons,
      List.sum_cons]
    have := ih h.2
    simp only [bucketUnitsSum] at this
    rw [this]
    ring

/-- Adding `q` to the unit field of a present key adds `q` to the map
total. -/
theorem bucketUnitsSum_update_add (m : List (String × MBucket)) (k : String) (q : ℚ)
    (h : amapHas m k = true) :
    bucketUnitsSum
        (amapUpdate (fun b => { b with unitsProduced := b.unitsProduced + q }) m k)
      = bucketUnitsSum m + q := by
  induction m with
  | nil => simp [amapHas] at h
  | cons e m ih =>
    cases he : (e.1 == k) with
    | true =>
      simp only [amapUpdate, he, if_true, bucketUnitsSum, List.map_cons, List.sum_cons]
      ring
    | false =>
      simp only [amapHas, Bool.or_eq_true, he, Bool.false_eq_true, false_or] at h
      simp only [amapUpdate, he, Bool.false_eq_true, if_false, bucketUnitsSum,
        List.map_cons, List.sum_cons]
      have := ih h
      simp only [bucketUnitsSum] at this
      rw [this]
      ring

/-- An update that never touches the unit field keeps the map total. -/
theorem bucketUnitsSum_update_preserve (f : MBucket → MBucket)
    (hf : ∀ b, (f b).unitsProduced = b.unitsProduced) (m : List (String × MBucket))
    (k : String) :
    bucketUnitsSum (amapUpdate f m k) = bucketUnitsSum m := by
  induction m with
  | nil => rfl
  | cons e m ih =>
    by_cases he : (e.1 == k) = true
    · simp only [amapUpdate, he, if_true, bucketUnitsSum, List.map_cons, List.sum_cons, hf]
    · simp only [amapUpdate, he, Bool.false_eq_true, if_false, bucketUnitsSum,
        List.map_cons, List.sum_cons]
      have := ih
      simp only [bucketUnitsSum] at this
      rw [this]

/-- Pre-population only seeds zero buckets, so the map total is kept. -/
theorem bucketUnitsSum_prePopulate :
    ∀ (fuel : ℕ) (a b : PlainDate) (m : List (String × MBucket)),
    bucketUnitsSum (prePopulateMonths fuel a b m) = bucketUnitsSum m := by
  intro fuel
  induction fuel with
  | zero => intro a b m; rfl
  | succ f ih =>
    intro a b m
    simp only [prePopulateMonths]
    by_cases hle : PlainDate.leb a b = true
    · rw [if_pos hle, ih]
      by_cases hhas : amapHas m (monthKeyOf a) = true
      · rw [if_pos hhas]
      · rw [if_neg hhas,
          bucketUnitsSum_amapSet m (monthKeyOf a) ⟨0, 0, monthLabelOf a⟩
            (Bool.not_eq_true _ ▸ hhas)]
        ring
    · rw [if_neg hle]

/-- One aggregation step changes the map total by exactly the document's
unit contribution. -/
theorem bucketUnitsSum_monthlyAggStep (dr : DateRange) (m : List (String × MBucket))
    (row : MongoDataRow) :
    bucketUnitsSum (monthlyAggStep dr m row)
      = bucketUnitsSum m + monthlyUnitsContribution dr row := by
  cases hts : resolveTimestamp row with
  | none => simp [monthlyAggStep, monthlyUnitsContribution, monthlyTsOk, hts]
  | some ts =>
    cases hr : (PlainDate.ltb ts dr.startDate || PlainDate.ltb dr.endDate ts) with
    | true => simp [monthlyAggStep, monthlyUnitsContribution, monthlyTsOk, hts, hr]
    | false =>
      simp only [monthlyAggStep, monthlyUnitsContribution, monthlyTsOk, hts, hr,
        Bool.false_eq_true, if_false, Bool.not_false, if_true]
      have hm1 : bucketUnitsSum (if amapHas m (monthKeyOf ts) then m
          else amapSet m (monthKeyOf ts) ⟨0, 0, monthLabelOf ts⟩) = bucketUnitsSum m := by
        by_cases hhas : amapHas m (monthKeyOf ts) = true
        · rw [if_pos hhas]
        · rw [if_neg hhas,
            bucketUnitsSum_amapSet m (monthKeyOf ts) ⟨0, 0, monthLabelOf ts⟩
              (Bool.not_eq_true _ ▸ hhas)]
          ring
      have hm1has : amapHas (if amapHas m (monthKeyOf ts) then m
          else amapSet m (monthKeyOf ts) ⟨0, 0, monthLabelOf ts⟩) (monthKeyOf ts) = true := by
        by_cases hhas : amapHas m (monthKeyOf ts) = true
        · rw [if_pos hhas]; exact hhas
        · rw [if_neg hhas]; exact amapHas_amapSet_self m (monthKeyOf ts) _
      set m1 := if amapHas m (monthKeyOf ts) then m
        else amapSet m (monthKeyOf ts) ⟨0, 0, monthLabelOf ts⟩ with hm1def
      have hd52gen : ∀ (m2 : List (String × MBucket)) (v : Option ℚ),
          bucketUnitsSum (match v with
            | some q => if 0 < q then
                amapUpdate (fun b => { b with defectCount := b.defectCount + q }) m2
                  (monthKeyOf ts)
              else m2
            | none => m2) = bucketUnitsSum m2 := by
        intro m2 v
        cases v with
        | none => rfl
        | some q =>
          show bucketUnitsSum (if 0 < q then
              amapUpdate (fun b => { b with defectCount := b.defectCount + q }) m2
                (monthKeyOf ts)
            else m2) = bucketUnitsSum m2
          by_cases hq : 0 < q
          · rw [if_pos hq]
            exact bucketUnitsSum_update_preserve
              (fun b => { b with defectCount := b.defectCount + q }) (fun b => rfl) m2
              (monthKeyOf ts)
          · rw [if_neg hq]
      have hd6gen : ∀ v : Option ℚ,
          bucketUnitsSum (match v with
            | some q => if 0 < q then
                amapUpdate (fun b => { b with unitsProduced := b.unitsProduced + q }) m1
                  (monthKeyOf ts)
              else m1
            | none => m1)
            = bucketUnitsSum m1 + (match v with
              | some q => if 0 < q then q else 0
              | none => 0) := by
        intro v
        cases v with
        | none =>
          show bucketUnitsSum m1 = bucketUnitsSum m1 + 0
          ring
        | some q =>
          show bucketUnitsSum (if 0 < q then
              amapUpdate (fun b => { b with unitsProduced := b.unitsProduced + q }) m1
                (monthKeyOf ts)
            else m1) = bucketUnitsSum m1 + (if 0 < q then q else 0)
          by_cases hq : 0 < q
          · rw [if_pos hq, if_pos hq, bucketUnitsSum_update_add m1 (monthKeyOf ts) q hm1has]
          · rw [if_neg hq, if_neg hq]
            ring
      rw [hd52gen, hd6gen, hm1]

/-- Folding the aggregation over a document list adds exactly the unit
contributions of the documents. -/
theorem bucketUnitsSum_foldl (dr : DateRange) (docs : List MongoDataRow) :
    ∀ m : List (String × MBucket),
    bucketUnitsSum (docs.foldl (monthlyAggStep dr) m)
      = bucketUnitsSum m + (docs.map (monthlyUnitsContribution dr)).sum := by
  induction docs with
  | nil => intro m; simp
  | cons d rest ih =>
    intro m
    simp only [List.foldl_cons, List.map_cons, List.sum_cons]
    rw [ih, bucketUnitsSum_monthlyAggStep]
    ring

/-- The unit total of the converted chart rows equals the map total. -/
theorem map_units_conv (l : List (String × MBucket)) :
    ((l.map (fun e =>
        (⟨e.2.month, e.2.unitsProduced, e.2.defectCount,
          if 0 < e.2.unitsProduced then e.2.defectCount / e.2.unitsProduced * 100
          else 0⟩ : MonthlyDefectRateData))).map (·.unitsProduced)).sum
      = bucketUnitsSum l := by
  induction l with
  | nil => rfl
  | cons e l ih =>
    simp only [List.map_cons, List.sum_cons, bucketUnitsSum] at *
    rw [ih]

/-- The unit total of the monthly series equals the summed contributions
of the mould-filtered documents. -/
theorem monthlySeries_units_sum (rows : List MongoDataRow) (mould : String)
    (dr : DateRange) :
    ((monthlySeriesOf rows mould dr).map (·.unitsProduced)).sum
      = ((rows.filter (monthlyMouldPred mould)).map (monthlyUnitsContribution dr)).sum := by
  unfold monthlySeriesOf
  rw [map_units_conv]
  unfold bucketUnitsSum
  rw [((List.perm_insertionSort
      (fun a b : String × MBucket => (strLeB a.1 b.1 = true : Prop))
      ((rows.filter (monthlyMouldPred mould)).foldl (monthlyAggStep dr)
        (prePopulateMonths 600 dr.startDate dr.endDate []))).map
      (fun e => e.2.unitsProduced)).sum_eq]
  have h := bucketUnitsSum_foldl dr (rows.filter (monthlyMouldPred mould))
    (prePopulateMonths 600 dr.startDate dr.endDate [])
  simp only [bucketUnitsSum] at h
  rw [h]
  have h0 := bucketUnitsSum_prePopulate 600 dr.startDate dr.endDate []
  simp only [bucketUnitsSum, List.map_nil, List.sum_nil] at h0
  rw [h0]
  ring

/-- A numeric-field fold from an arbitrary accumulator is the accumulator
plus the defaulted numeric values. -/
theorem sumNumeric_go (f : DocData → Option FieldVal) (docs : List MongoDataRow) :
    ∀ a : ℚ,
    docs.foldl (fun acc doc =>
      match numIfPresent (doc.field f) with
      | some q => acc + q
      | none => acc) a
      = a + (docs.map (fun doc => (numIfPresent (doc.field f)).getD 0)).sum := by
  induction docs with
  | nil => intro a; simp
  | cons d rest ih =>
    intro a
    simp only [List.foldl_cons, List.map_cons, List.sum_cons]
    cases hq : numIfPresent (d.field f) with
    | none =>
      rw [ih]
      simp [hq]
    | some q =>
      rw [ih]
      simp only [Option.getD_some]
      ring

/-- `sumNumeric` is the sum of the defaulted numeric field values. -/
theorem sumNumeric_eq_mapsum (docs : List MongoDataRow) (f : DocData → Option FieldVal) :
    sumNumeric docs f
      = (docs.map (fun doc => (numIfPresent (doc.field f)).getD 0)).sum := by
  unfold sumNumeric
  rw [sumNumeric_go]
  ring

/-- Claim C10 (amended): the KPI unit total and the monthly-series unit
total coincide exactly when every mould-matching document whose `D6` is
numeric has either a zero value or a positive value together with a
parseable in-range timestamp; in general the KPI total also counts
undated, out-of-range and non-positive numeric `D6` values that the
monthly series drops. -/
theorem C10_cross_view_amended (rows : List MongoDataRow) (mould : String)
    (dateRange : DateRange)
    (h : ∀ row ∈ rows.filter (kpiMouldPred mould), ∀ q : ℚ,
        numIfPresent (row.field (·.D6)) = some q →
        q = 0 ∨ (0 < q ∧ monthlyTsOk dateRange row = true)) :
    sumNumeric (rows.filter (kpiMouldPred mould)) (·.D6)
      = ((monthlySeriesOf rows mould dateRange).map (·.unitsProduced)).sum := by
  rw [monthlySeries_units_sum, sumNumeric_eq_mapsum]
  have hpred : monthlyMouldPred mould = kpiMouldPred mould := rfl
  rw [hpred]
  refine congrArg List.sum (List.map_congr_left ?_)
  intro row hrow
  cases hq : numIfPresent (row.field (·.D6)) with
  | none =>
    simp only [hq, Option.getD_none, monthlyUnitsContribution]
    by_cases hts : monthlyTsOk dateRange row = true
    · simp [hts, hq]
    · simp [Bool.not_eq_true _ ▸ hts]
  | some q =>
    rcases h row hrow q hq with h0 | ⟨hpos, hts⟩
    · subst h0
      simp only [hq, Option.getD_some, monthlyUnitsContribution]
      by_cases hts : monthlyTsOk dateRange row = true
      · simp [hts, hq]
      · simp [Bool.not_eq_true _ ▸ hts]
    · simp [monthlyUnitsContribution, hts, hq, hpos]

/-- Witness document for C10: positive units, dated inside Q1 2025. -/
def c10wDoc : MongoDataRow where
  data := some { DocData.empty with
    D17 := some (.vstr "M")
    D6 := some (.vnum 100) }
  timestamp := some (some (mkDate 2025 0 15 10))
  altTimestamps := []

set_option maxRecDepth 100000 in
/-- Witness for the amended C10 at a concrete well-behaved document set. -/
theorem C10_cross_view_amended_w :
    sumNumeric ([c10wDoc].filter (kpiMouldPred "M")) (·.D6)
      = ((monthlySeriesOf [c10wDoc] "M" q1Range2025).map (·.unitsProduced)).sum :=
  C10_cross_view_amended [c10wDoc] "M" q1Range2025 (by
    intro row hrow q hq
    rw [show ([c10wDoc].filter (kpiMouldPred "M")) = [c10wDoc] from by
      with_unfolding_all decide] at hrow
    rw [List.mem_singleton] at hrow
    subst hrow
    rw [show numIfPresent (c10wDoc.field (·.D6)) = some (100 : ℚ) from by
      with_unfolding_all decide] at hq
    injection hq with hq'
    subst hq'
    exact Or.inr ⟨by norm_num, by with_unfolding_all decide⟩)

/-- First counterexample document for C10: dated, 100 units. -/
def c10Doc1 : MongoDataRow where
  data := some { DocData.empty with
    D17 := some (.vstr "M")
    D6 := some (.vnum 100) }
  timestamp := some (some (mkDate 2025 0 15 10))
  altTimestamps := []

/-- Second counterexample document for C10: undated, 50 units. -/
def c10Doc2 : MongoDataRow where
  data := some { DocData.empty with
    D17 := some (.vstr "M")
    D6 := some (.vnum 50) }
  timestamp := none
  altTimestamps := []

/-- Unit total carried by a KPI outcome. -/
def kpiUnitsOfResult : Except JsError KPIResult → Option ℚ
  | .ok r => some r.totalUnitsProduced
  | .error _ => none

/-- Unit total carried by a real-path monthly series outcome. -/
def monthlySeriesUnitsSum : Except JsError MonthlyFnResult → Option ℚ
  | .ok (.series xs) => some ((xs.map (·.unitsProduced)).sum)
  | _ => none

/-- Claim C10 counterexample: on the same fetched documents and the same
real-data (non-degraded) path, the KPI total counts the undated
document's 50 units (total 150) while the monthly series drops it
(total 100). -/
theorem C10_cross_view_counterexample :
    kpiUnitsOfResult (calculateKPIs (.success (.rows [c10Doc1, c10Doc2])) .failure "M1" "M"
        q1Range2025 (fun _ => 0)) = some 150 ∧
    monthlySeriesUnitsSum (calculateMonthlyDefectRateData (.success (.rows [c10Doc1, c10Doc2]))
        "M1" "M" q1Range2025 (fun _ => 0)) = some 100 ∧
    (150 : ℚ) ≠ 100 :=
  ⟨by with_unfolding_all decide, by with_unfolding_all decide, by norm_num⟩

end DefectTrend
